/-
  Verification development for the "cucumber" watering-system controller
  (src/cucumber.ino, a single Arduino sketch).

  The sketch is shallowly embedded: each control block of loop() and each
  helper function becomes an executable Lean definition over explicit state
  records.  Machine integers (int, long, time_t, unsigned int) are modelled
  as ℤ/ℕ — all quantities involved stay far away from the 16/32-bit
  overflow boundaries in every scenario considered here — and float
  arithmetic in calcWater is modelled exactly over ℚ (every coefficient in
  the sketch is a small integral constant, so the float computations the
  claims mention are exact).

  Line references in doc comments point into src/cucumber.ino.
-/

import Mathlib

set_option autoImplicit false

namespace Cucumber

/-! ### Clock collaborator and time predicates -/

/-- A sample of the RTC as consumed once per control tick
(`state.time = RTClib::now()`, line 286): week-day, hour, minute, second
and the absolute epoch-second count (`getUnixTime`). -/
structure Clock where
  weekDay : ℤ
  hour : ℤ
  minute : ℤ
  second : ℤ
  unix : ℤ
deriving DecidableEq, Repr

/-- `timeCheck` (lines 835-837): true if the first value is negative or the
two values are equal. -/
def timeCheck (x v : ℤ) : Bool :=
  decide (x < 0) || decide (x = v)

/-- `timeIs` (lines 842-844): each field either matches the current time or
is a wildcard (negative). -/
def timeIs (c : Clock) (weekDay hour min sec : ℤ) : Bool :=
  timeCheck weekDay c.weekDay && timeCheck hour c.hour &&
    timeCheck min c.minute && timeCheck sec c.second

/-! ### Watering configuration constants (lines 26-47) -/

/-- `settings.watering.tempCoeff = -9` (line 28). -/
def tempCoeff : ℚ := -9

/-- `settings.watering.rainCoeff = 27` (line 29). -/
def rainCoeff : ℚ := 27

/-- `settings.watering.maxRain = 20` (line 31). -/
def maxRain : ℚ := 20

/-- `settings.watering.desiredLevels = {20,...,20}` (line 33). -/
def desiredLevels : ℤ → ℚ := fun _ => 20

/-- `settings.watering.bufferSize = {60,...,60}` (line 34). -/
def bufferSize : ℤ → ℤ := fun _ => 60

/-- `settings.fertilising.fertTimes = {20,...,20}` (line 38). -/
def sourceFertTimes : ℤ → ℤ := fun _ => 20

/-! ### Dosage model -/

/-- Arduino `round` applied to an exact rational: half away from zero,
i.e. `(long)(x+0.5)` for `x ≥ 0` and `(long)(x-0.5)` otherwise, where the
cast truncates toward zero. -/
def cround (x : ℚ) : ℤ :=
  if 0 ≤ x then ⌊x + 1/2⌋ else ⌈x - 1/2⌉

/-- The fields of a `Day` record (lines 52-58) that `calcWater` reads:
`rainFlips` and `maxTemp`. -/
structure Day where
  rainFlips : ℤ
  maxTemp : ℚ
deriving DecidableEq

/-- `calcWater` (lines 888-894), for a given tally array, day record and
line index:
`deltaWater = min(maxRain, rainFlips) * rainCoeff + maxTemp * tempCoeff`;
`current = tallies[line] + deltaWater`;
result `= max(0, round(desiredLevels[line] - current))` as an unsigned int. -/
def calcWater (tallies : ℤ → ℚ) (d : Day) (line : ℤ) : ℕ :=
  let deltaWater : ℚ := min maxRain (d.rainFlips : ℚ) * rainCoeff + d.maxTemp * tempCoeff
  let current : ℚ := tallies line + deltaWater
  (max 0 (cround (desiredLevels line - current))).toNat

/-- Modelled from the spec (§4.2 Dosage Model), for comparison with
`calcWater`: `delta = min(maxRainAllowed, record.rainfallEventCount) *
rainCoefficient + record.maxTemperature * temperatureCoefficient`;
`dose = max(0, round(desiredLevel[line] - (tally[line] + delta)))`. -/
def doseSpec (tallies : ℤ → ℚ) (d : Day) (line : ℤ) : ℕ :=
  let delta : ℚ := min maxRain (d.rainFlips : ℚ) * rainCoeff + d.maxTemp * tempCoeff
  (max 0 (cround (desiredLevels line - (tallies line + delta)))).toNat

/-! ### Hack timers (lines 132-136, 460-482) -/

/-- Per-line hack-timer state: `haxTimerState[i]` (mode: 0 Off, 1 On,
2 Timer10, 3 Timer20, 4 Timer10Weekly, 5 Timer20Weekly), `triggers[i]`
and `isOn[i]`. -/
structure HaxTimer where
  mode : ℤ
  trigger : ℤ
  isOn : Bool
deriving DecidableEq, Repr

/-- One per-second evaluation of a single line's hack timer
(lines 461-481).  Returns the new timer state together with the solenoid
command issued through `haxSolenoidSet` (`none` when no command is
issued). -/
def haxTimerStep (now : ℤ) (h : HaxTimer) : HaxTimer × Option Bool :=
  if 1 < h.mode then
    if h.trigger = now then
      let newOn := !h.isOn
      if h.mode = 4 ∨ h.mode = 5 then
        if newOn then
          ({ mode := h.mode, trigger := h.trigger + (if h.mode = 4 then 600 else 1200), isOn := newOn }, some newOn)
        else
          ({ mode := h.mode, trigger := h.trigger + 604800 - (if h.mode = 4 then 600 else 1200), isOn := newOn }, some newOn)
      else
        ({ mode := 0, trigger := 0, isOn := newOn }, some newOn)
    else (h, none)
  else (h, none)

/-! ### Tank-level sampler and relay safety gate
(lines 852-862, 875-878, 319-321) -/

/-- The state shared between the relay safety gate, the per-second cooldown
countdown and the ultrasonic-echo interrupt handler:
`state.noPinInterrupts`, `state.waterTankUltrasonicTimer` and
`state.previousDays[2].waterTankLevel`, plus the raw output pin levels. -/
structure TankCtx where
  noPinInterrupts : ℕ
  echoTimer : ℤ
  tankLevel : ℤ
  pinOut : ℤ → Bool

/-- `safeRelayWrite` (lines 875-878): set the cooldown counter to 2 and
perform the pin write. -/
def safeRelayWrite (pin : ℤ) (pinState : Bool) (s : TankCtx) : TankCtx :=
  { s with noPinInterrupts := 2,
           pinOut := fun p => if p = pin then pinState else s.pinOut p }

/-- The once-per-second cooldown countdown (lines 319-321):
`if (state.noPinInterrupts) state.noPinInterrupts--`. -/
def cooldownTick (s : TankCtx) : TankCtx :=
  if s.noPinInterrupts ≠ 0 then { s with noPinInterrupts := s.noPinInterrupts - 1 } else s

/-- `cooldownTick` iterated over `k` second-ticks. -/
def cooldownIter : ℕ → TankCtx → TankCtx
  | 0, s => s
  | k + 1, s => cooldownIter k (cooldownTick s)

/-- `waterTankUltrasonicEcho` (lines 852-862): no-op while the cooldown
counter is non-zero; otherwise store the edge timestamp on a rising edge
and the pulse width on a falling edge.  `echoLevel` is the value
`digitalRead(pins.waterTankUltrasonic.echo)` and `micros` the current
microsecond clock. -/
def waterTankUltrasonicEcho (echoLevel : Bool) (micros : ℤ) (s : TankCtx) : TankCtx :=
  if s.noPinInterrupts ≠ 0 then s
  else if echoLevel then { s with echoTimer := micros }
  else { s with tankLevel := micros - s.echoTimer }

/-! ### Daily fertiliser-pump schedule (lines 351-357) -/

/-- The slice of global state the daily pump schedule can see or touch,
together with the cycle-state fields it provably leaves alone:
the fertiliser pump relay level, the cooldown counter set by
`safeRelayWrite`, and the watering/fertilising state machines. -/
structure PumpCtx where
  pumpOut : Bool
  noPinInterrupts : ℕ
  fertStartTime : ℤ
  fertCursor : ℤ
  fertDumpCount : ℤ
  waterCursor : ℤ
deriving DecidableEq, Repr

/-- The two scheduled pump events (lines 351-357): at any-weekday 07:10:00
switch the pump on through `safeRelayWrite`, at 07:12:00 switch it off,
each only when the fertiliser-pump automation switch is enabled. -/
def pumpEvents (c : Clock) (fertPump : Bool) (s : PumpCtx) : PumpCtx :=
  let s1 := if timeIs c (-1) 7 10 0 && fertPump then
      { s with pumpOut := true, noPinInterrupts := 2 } else s
  if timeIs c (-1) 7 12 0 && fertPump then
      { s1 with pumpOut := false, noPinInterrupts := 2 } else s1

/-! ### Automatic fertilising trigger (lines 407-409) -/

/-- The weekly automatic trigger (lines 407-409): when
`timeIs(0, 16, 0, 0)` holds and fertilising automation is enabled,
`state.fertilising.startTime` is set to the current epoch second. -/
def fertTriggerStartTime (c : Clock) (fertAuto : Bool) (startTime : ℤ) : ℤ :=
  if timeIs c 0 16 0 0 && fertAuto then c.unix else startTime

/-! ### Solenoid position controller (lines 125-130, 289-308)

Per line `i`: `oldState[i]` (an `int`, `-1` meaning position unknown,
otherwise the last feedback reading), `desiredState[i]`, the shared
exclusion token `lock` (`-1` when free, otherwise the owning line) and the
level currently driven on the line's spin output pin. -/

/-- The spin-controller slice of the global state
(`state.haxSolenoidOn`, lines 126-130) together with the spin output pin
levels. -/
structure SpinState where
  oldState : ℤ → ℤ
  desired : ℤ → Bool
  lock : ℤ
  spin : ℤ → Bool

/-- The servo phase of the per-line loop body (lines 292-303) for line
`i`: `reads i` is `digitalRead(pins.haxSolenoid.read[i])` and
`secondChanged` is `state.time.getSecond() != state.lastSecond`.  Drives
the spin output HIGH while feedback disagrees with the desired position
(or the position is unknown) and the lock is free or already held by `i`
(bumping a negative `oldState[i]` once per second); on an observed
settling transition drives the output LOW and frees the lock. -/
def lineServo (reads : ℤ → Bool) (secondChanged : Bool) (i : ℤ) (s : SpinState) : SpinState :=
  if s.oldState i < 0 ∨ reads i ≠ s.desired i then
    if s.lock = i ∨ s.lock < 0 then
      { s with
        oldState := fun j => if j = i then
            (if s.oldState i < 0 ∧ secondChanged then s.oldState i + 1 else s.oldState i)
          else s.oldState j,
        spin := fun j => if j = i then true else s.spin j,
        lock := i }
    else s
  else if s.oldState i ≠ (if reads i then 1 else 0) then
    { s with spin := fun j => if j = i then false else s.spin j, lock := -1 }
  else s

/-- The latch phase of the per-line loop body (lines 305-307): once the
position is known (`oldState[i] ≥ 0`), record the current reading. -/
def lineLatch (n : Bool) (i : ℤ) (s : SpinState) : SpinState :=
  if 0 ≤ s.oldState i then
    { s with oldState := fun j => if j = i then (if n then 1 else 0) else s.oldState j }
  else s

/-- One iteration of the servo loop body (lines 289-308) for line `i`:
the servo phase followed by the latch phase. -/
def lineStep (reads : ℤ → Bool) (secondChanged : Bool) (i : ℤ) (s : SpinState) : SpinState :=
  lineLatch (reads i) i (lineServo reads secondChanged i s)

/-- One pass of the servo loop over all six lines in source order
(the `for` loop at line 289). -/
def spinStep (reads : ℤ → Bool) (secondChanged : Bool) (s : SpinState) : SpinState :=
  lineStep reads secondChanged 5 (lineStep reads secondChanged 4
    (lineStep reads secondChanged 3 (lineStep reads secondChanged 2
      (lineStep reads secondChanged 1 (lineStep reads secondChanged 0 s)))))

/-- `spinStep` applied tick by tick to a sequence of feedback-read vectors,
with a second boundary at every tick. -/
def spinRun (readsSeq : List (ℤ → Bool)) (s : SpinState) : SpinState :=
  readsSeq.foldl (fun st r => spinStep r true st) s

/-- The spin-controller state right after `setup()`: every `oldState[i]`
set to `-1` (line 254), all desired positions closed (line 127), the lock
free (line 129) and no spin output driven. -/
def spinInit : SpinState :=
  { oldState := fun _ => -1, desired := fun _ => false, lock := -1, spin := fun _ => false }

/-- A feedback-read vector reading HIGH exactly on the listed lines. -/
def readsOf (l : List ℤ) : ℤ → Bool := fun i => decide (i ∈ l)

/-- A sequence of feedback readings, one vector per tick, under which two
spin outputs end up driven simultaneously: lines 0-5 first complete their
initial position hunt one after the other; then line 0 starts spinning
(reading stuck HIGH, desired LOW), and line 1's reading flips HIGH and back
LOW while line 1 is idle, which makes line 1 run the release branch
(lines 300-303) and free the lock that line 0 still holds, letting line 2
acquire it while line 0's output is still HIGH. -/
def spinCexReads : List (ℤ → Bool) :=
  [readsOf [], readsOf [0], readsOf [], readsOf [1], readsOf [], readsOf [2], readsOf [],
   readsOf [3], readsOf [], readsOf [4], readsOf [], readsOf [5], readsOf [],
   readsOf [0, 1], readsOf [0, 2]]

/-- Invariant tying driven spin outputs to lock ownership: any line whose
spin output is driven HIGH is the owner of the SpinLock. -/
def SpinInv (s : SpinState) : Prop := ∀ j, s.spin j = true → s.lock = j

/-- Well-formedness: only the six real lines 0..5 can have a driven spin
output (the sketch's arrays have exactly six entries). -/
def SpinWF (s : SpinState) : Prop := ∀ j : ℤ, j < 0 ∨ 5 < j → s.spin j = false

/-- Environment assumption for one line on one tick: line `i`'s feedback
reading differs from its latched previous reading only while line `i`'s
spin output is being driven (valve positions do not change on their
own). -/
def LineEnv (reads : ℤ → Bool) (s : SpinState) (i : ℤ) : Prop :=
  0 ≤ s.oldState i → s.oldState i ≠ (if reads i then 1 else 0) → s.spin i = true

/-- Environment assumption for one tick: `LineEnv` for every line. -/
def SpinEnvOK (reads : ℤ → Bool) (s : SpinState) : Prop :=
  ∀ i : ℤ, LineEnv reads s i

/-! ### Watering cycle (lines 144-150, 375-401) -/

/-- The watering-cycle slice of the global state
(`state.watering`, lines 144-150) plus the per-line desired solenoid
positions set through `haxSolenoidSet` (line 846-849). -/
structure WaterState where
  cursor : ℤ
  finishTime : ℤ
  tallies : ℤ → ℚ
  totalAdded : ℕ
  lineOn : ℤ → Bool

/-- The close step of a firing watering tick (lines 376-378): turn the
previously active line (if any) off via `haxSolenoidSet`. -/
def wClose (s : WaterState) : WaterState :=
  if 0 ≤ s.cursor then
    { s with lineOn := fun j => if j = s.cursor then false else s.lineOn j }
  else s

/-- The advance step of a firing watering tick (lines 380-400), applied
after `wClose`: increment the cursor; past the last line return to idle;
otherwise compute the dose for the new line, accumulate it into the daily
total, and open the line until `now + dose` when the dose reaches the
line's buffer size. -/
def wAdvance (d : Day) (now : ℤ) (s1 : WaterState) : WaterState :=
  if 6 ≤ s1.cursor + 1 then { s1 with cursor := -2, finishTime := 0 }
  else if bufferSize (s1.cursor + 1) ≤ (calcWater s1.tallies d (s1.cursor + 1) : ℤ) then
    { s1 with cursor := s1.cursor + 1,
              totalAdded := s1.totalAdded + calcWater s1.tallies d (s1.cursor + 1),
              finishTime := now + (calcWater s1.tallies d (s1.cursor + 1) : ℤ),
              lineOn := fun j => if j = s1.cursor + 1 then true else s1.lineOn j }
  else { s1 with cursor := s1.cursor + 1,
                 totalAdded := s1.totalAdded + calcWater s1.tallies d (s1.cursor + 1) }

/-- One per-second evaluation of the watering sweep (lines 375-401):
when the cursor is not idle and the due time has elapsed, close the
previously active line and advance. -/
def wTick (d : Day) (now : ℤ) (s : WaterState) : WaterState :=
  if -1 ≤ s.cursor ∧ s.finishTime ≤ now then wAdvance d now (wClose s) else s

/-- `wTick` applied at consecutive epoch seconds `t, t+1, ...` for `n`
ticks (the sweep is evaluated once per second-boundary tick). -/
def wRun (d : Day) : ℤ → ℕ → WaterState → WaterState
  | _, 0, s => s
  | t, n + 1, s => wRun d (t + 1) n (wTick d t s)

/-- The cursor value after each of `n` consecutive per-second ticks. -/
def wTrace (d : Day) : ℤ → ℕ → WaterState → List ℤ
  | _, 0, _ => []
  | t, n + 1, s => (wTick d t s).cursor :: wTrace d (t + 1) n (wTick d t s)

/-- The watering state of the claimed line-3 scenario: a sweep that has
just finished line 2, with every tally at its boot value 20. -/
def scenarioWaterState : WaterState :=
  { cursor := 2, finishTime := 0, tallies := fun _ => 20,
    totalAdded := 0, lineOn := fun _ => false }

/-- Yesterday's day record of the claimed scenario: 5 rain flips, maximum
temperature 30. -/
def scenarioDay : Day := { rainFlips := 5, maxTemp := 30 }

/-! ### Fertilising cycle (lines 152-159, 411-456) -/

/-- The fertilising-cycle slice of the global state
(`state.fertilising`, lines 152-159) together with the relay levels it
drives (tap water, pump, fertiliser valve), the per-line desired solenoid
positions and the cooldown counter written by `safeRelayWrite`. -/
structure FertState where
  startTime : ℤ
  cursor : ℤ
  dumpCount : ℤ
  finishTime : ℤ
  tap : Bool
  pump : Bool
  fert : Bool
  lineOn : ℤ → Bool
  noPinInterrupts : ℕ

/-- Priming event at `startTime + 0` (lines 411-413): open tap water
through `safeRelayWrite` (which also sets the cooldown counter to 2). -/
def fertEvent0 (now : ℤ) (s : FertState) : FertState :=
  if now = s.startTime then { s with tap := true, noPinInterrupts := 2 } else s

/-- Priming event at `startTime + 32` (lines 415-419): close tap water,
open the fertiliser pump and fertiliser valve. -/
def fertEvent32 (now : ℤ) (s : FertState) : FertState :=
  if now = s.startTime + 32 then
    { s with tap := false, pump := true, fert := true, noPinInterrupts := 2 } else s

/-- Priming event at `startTime + 40` (lines 421-425): reopen tap water,
close the pump and the fertiliser valve. -/
def fertEvent40 (now : ℤ) (s : FertState) : FertState :=
  if now = s.startTime + 40 then
    { s with tap := true, pump := false, fert := false, noPinInterrupts := 2 } else s

/-- Priming event at `startTime + 72` (lines 427-433): close tap water,
set the dispense cursor to Starting (−1) and clear `startTime`. -/
def fertEvent72 (now : ℤ) (s : FertState) : FertState :=
  if now = s.startTime + 72 then
    { s with tap := false, noPinInterrupts := 2, cursor := -1, startTime := 0 } else s

/-- The four priming events (lines 411-433), evaluated in source order on
one per-second tick. -/
def fertEvents (now : ℤ) (s : FertState) : FertState :=
  fertEvent72 now (fertEvent40 now (fertEvent32 now (fertEvent0 now s)))

/-- The close step of a firing dispense tick (lines 437-439): turn the
previously active line (if any) off via `haxSolenoidSet`. -/
def fertClose (s : FertState) : FertState :=
  if 0 ≤ s.cursor then
    { s with lineOn := fun j => if j = s.cursor then false else s.lineOn j }
  else s

/-- The advance step of a firing dispense tick (lines 441-455), applied
after `fertClose`: increment the cursor; past the last line, reset the
cursor and count the completed sweep — after the third sweep return to
idle (cursor `-2`, counter reset); otherwise open the new line for its
configured duration, but only when that duration is positive. -/
def fertAdvance (fertTimes : ℤ → ℤ) (now : ℤ) (s1 : FertState) : FertState :=
  if 6 ≤ s1.cursor + 1 then
    if s1.dumpCount + 1 = 3 then
      { s1 with cursor := -2, finishTime := 0, dumpCount := 0 }
    else
      { s1 with cursor := -1, finishTime := 0, dumpCount := s1.dumpCount + 1 }
  else if 0 < fertTimes (s1.cursor + 1) then
    { s1 with cursor := s1.cursor + 1, finishTime := now + fertTimes (s1.cursor + 1),
              lineOn := fun j => if j = s1.cursor + 1 then true else s1.lineOn j }
  else { s1 with cursor := s1.cursor + 1 }

/-- One per-second evaluation of the fertilising dispense sweep
(lines 436-456) for a configured `fertTimes` array: when the cursor is
not idle and the due time has elapsed, close the previously active line
and advance. -/
def fertDispense (fertTimes : ℤ → ℤ) (now : ℤ) (s : FertState) : FertState :=
  if -1 ≤ s.cursor ∧ s.finishTime ≤ now then fertAdvance fertTimes now (fertClose s) else s

/-- One full per-second evaluation of the fertilising section of `loop()`:
the priming events (lines 411-433) followed by the dispense sweep
(lines 436-456), in source order. -/
def fertTick (fertTimes : ℤ → ℤ) (now : ℤ) (s : FertState) : FertState :=
  fertDispense fertTimes now (fertEvents now s)

/-- `fertTick` applied at consecutive epoch seconds `t, t+1, ...`. -/
def fertRun (fertTimes : ℤ → ℤ) : ℤ → ℕ → FertState → FertState
  | _, 0, s => s
  | t, n + 1, s => fertRun fertTimes (t + 1) n (fertTick fertTimes t s)

/-- The cursor value after each of `n` consecutive per-second ticks. -/
def fertTrace (fertTimes : ℤ → ℤ) : ℤ → ℕ → FertState → List ℤ
  | _, 0, _ => []
  | t, n + 1, s => (fertTick fertTimes t s).cursor :: fertTrace fertTimes (t + 1) n (fertTick fertTimes t s)

/-- The full state after each of `n` consecutive per-second ticks. -/
def fertStates (fertTimes : ℤ → ℤ) : ℤ → ℕ → FertState → List FertState
  | _, 0, _ => []
  | t, n + 1, s => fertTick fertTimes t s :: fertStates fertTimes (t + 1) n (fertTick fertTimes t s)

/-- Counts the adjacent state pairs of a trace satisfying `p` — used to
count transition events along a run. -/
def countPairs (p : FertState → FertState → Bool) : List FertState → ℕ
  | a :: b :: rest => (if p a b then 1 else 0) + countPairs p (b :: rest)
  | _ => 0

/-- A priming sequence completes between two adjacent states exactly when
`startTime` drops back to 0 (the 72-second event, line 432). -/
def primingDoneP (a b : FertState) : Bool := decide (a.startTime ≠ 0 ∧ b.startTime = 0)

/-- A dispensing sweep completes between two adjacent states exactly when
the cursor falls off line 5 back below zero (lines 443-451). -/
def sweepDoneP (a b : FertState) : Bool := decide (a.cursor = 5 ∧ b.cursor < 0)

/-- The fertilising state at the tick on which a cycle invocation starts
(`startTime` just set to `t0`, everything else idle, all relays and lines
off) — the state produced by the manual or automatic trigger from idle. -/
def fertStart (t0 : ℤ) : FertState :=
  { startTime := t0, cursor := -2, dumpCount := 0, finishTime := 0,
    tap := false, pump := false, fert := false,
    lineOn := fun _ => false, noPinInterrupts := 0 }

/-- A mixed fertilising configuration exercising both skipped
(non-positive duration) and dispensed lines: lines 1 and 3 are configured
with durations 0 and −1, the others with 2 seconds. -/
def mixedFertTimes : ℤ → ℤ := fun i => if i = 1 then 0 else if i = 3 then -1 else 2

/-- The number of per-second ticks the dispense cursor dwells on line `i`
during one sweep: the configured duration when it is positive (the line
is open for exactly that many seconds), otherwise a single tick (the line
is skipped). -/
def fertGap (fertTimes : ℤ → ℤ) (i : ℤ) : ℕ :=
  if 0 < fertTimes i then (fertTimes i).toNat else 1

/-- A concrete tank-sampler context with the cooldown expired. -/
def tankCtx0 : TankCtx :=
  { noPinInterrupts := 0, echoTimer := 0, tankLevel := 0, pinOut := fun _ => false }

/-- A concrete pump-schedule context used to instantiate the schedule
theorem. -/
def pumpCtx0 : PumpCtx :=
  { pumpOut := false, noPinInterrupts := 0, fertStartTime := 0,
    fertCursor := -2, fertDumpCount := 0, waterCursor := -2 }

/-!
## Theorems

One theorem (plus witness or counterexample where required) per claim,
with shared helper lemmas in between.
-/

/-! ### Claim C3 — dosage model -/

/-- Claim C3: for every tally array, day record and line, `calcWater`
agrees with the spec's dosage formula
`max(0, round(desiredLevel − (tally + min(maxRainAllowed, rainfallEventCount)·rainCoefficient + maxTemperature·temperatureCoefficient)))`;
and in the quoted scenario — line 3, desired level 20, tally 20,
yesterday 5 rain flips and maximum temperature 30 — the dose is 135
seconds, which reaches the 60-second buffer, so the sweep tick opens
line 3 and schedules it to close exactly 135 seconds later. -/
theorem calcWater_matches_spec_and_scenario :
    (∀ (tallies : ℤ → ℚ) (d : Day) (line : ℤ),
        calcWater tallies d line = doseSpec tallies d line) ∧
    calcWater (fun _ => 20) scenarioDay 3 = 135 ∧
    bufferSize 3 ≤ 135 ∧
    (wTick scenarioDay 1000 scenarioWaterState).cursor = 3 ∧
    (wTick scenarioDay 1000 scenarioWaterState).lineOn 3 = true ∧
    (wTick scenarioDay 1000 scenarioWaterState).finishTime = 1000 + 135 := by
  have hdose : calcWater (fun _ => 20) scenarioDay 3 = 135 := by
    unfold calcWater cround scenarioDay desiredLevels maxRain rainCoeff tempCoeff
    norm_num
    rfl
  refine ⟨fun tallies d line => rfl, hdose, by decide, ?_, ?_, ?_⟩ <;>
    · unfold wTick scenarioWaterState
      norm_num [hdose, bufferSize, wClose, wAdvance]

/-! ### Claim C2 — automatic fertilising trigger -/

/-- Counterexample to claim C2: at the clock reading
(weekday 1 — Sunday in the clock contract's 1..7 range — 16:00:00), the
automatic trigger condition `timeIs(0, 16, 0, 0)` is false and
`startTime` is left unset even with fertilising automation enabled. -/
theorem fert_trigger_contract_sunday_cex :
    timeIs ⟨1, 16, 0, 0, 1700000000⟩ 0 16 0 0 = false ∧
    fertTriggerStartTime ⟨1, 16, 0, 0, 1700000000⟩ true 0 = 0 := by decide

/-- Claim C2 (amended): the automatic trigger never fires for any clock
reading whose weekday lies in the stated contract range 1..7; it fires —
setting `startTime` to the current epoch second when fertilising
automation is enabled — exactly on weekday reading 0 (the index the
sketch's day-name table maps to SUN) at 16:00:00; with automation
disabled it never fires. -/
theorem fert_trigger_fires_only_at_weekday_zero (c : Clock) (st : ℤ) :
    (1 ≤ c.weekDay → fertTriggerStartTime c true st = st) ∧
    (c.weekDay = 0 → c.hour = 16 → c.minute = 0 → c.second = 0 →
      fertTriggerStartTime c true st = c.unix) ∧
    fertTriggerStartTime c false st = st := by
  refine ⟨?_, ?_, ?_⟩
  · intro h
    have hne : ¬ ((0 : ℤ) = c.weekDay) := by omega
    simp [fertTriggerStartTime, timeIs, timeCheck, hne]
  · intro h0 h16 hm hs
    simp [fertTriggerStartTime, timeIs, timeCheck, h0, h16, hm, hs]
  · simp [fertTriggerStartTime]

/-- Witness for the amended claim C2 at two concrete clock readings. -/
theorem fert_trigger_fires_only_at_weekday_zero_witness :
    fertTriggerStartTime ⟨1, 16, 0, 0, 1700000000⟩ true 5 = 5 ∧
    fertTriggerStartTime ⟨0, 16, 0, 0, 1700000000⟩ true 5 = 1700000000 := by
  exact ⟨(fert_trigger_fires_only_at_weekday_zero ⟨1, 16, 0, 0, 1700000000⟩ 5).1 (by decide),
         (fert_trigger_fires_only_at_weekday_zero ⟨0, 16, 0, 0, 1700000000⟩ 5).2.1
           rfl rfl rfl rfl⟩

/-! ### Claim C7 — weekly hack timers -/

/-- Claim C7: a weekly hack timer (mode 4 resp. 5, on-duration 600 resp.
1200 seconds) firing at `t` and toggling its line on re-arms to fire —
toggling off — at `t + duration`, does not fire in between, and that off
toggle re-arms it to fire (toggling on again) at `t + 604800`. -/
theorem weekly_hax_timer_rearm (m t : ℤ) (hm : m = 4 ∨ m = 5) :
    haxTimerStep t ⟨m, t, false⟩ =
      (⟨m, t + (if m = 4 then 600 else 1200), true⟩, some true) ∧
    (∀ u : ℤ, u ≠ t + (if m = 4 then 600 else 1200) →
      haxTimerStep u ⟨m, t + (if m = 4 then 600 else 1200), true⟩ =
        (⟨m, t + (if m = 4 then 600 else 1200), true⟩, none)) ∧
    haxTimerStep (t + (if m = 4 then 600 else 1200))
        ⟨m, t + (if m = 4 then 600 else 1200), true⟩ =
      (⟨m, t + 604800, false⟩, some false) := by
  rcases hm with rfl | rfl <;>
    refine ⟨by simp [haxTimerStep], fun u hu => by simp [haxTimerStep]; simp at hu; omega, ?_⟩ <;>
      · simp [haxTimerStep]
        omega

/-- Witness for claim C7 with the 10-minute weekly mode armed at 500. -/
theorem weekly_hax_timer_rearm_witness :
    haxTimerStep 500 ⟨4, 500, false⟩ = (⟨4, 1100, true⟩, some true) ∧
    haxTimerStep 700 ⟨4, 1100, true⟩ = (⟨4, 1100, true⟩, none) ∧
    haxTimerStep 1100 ⟨4, 1100, true⟩ = (⟨4, 605300, false⟩, some false) := by
  obtain ⟨h1, h2, h3⟩ := weekly_hax_timer_rearm 4 500 (Or.inl rfl)
  refine ⟨by simpa using h1, by simpa using h2 700 (by decide), by simpa using h3⟩

/-! ### Claim C8 — one-shot hack timers -/

/-- Counterexample to claim C8: a Timer10 (mode 2) timer firing at its
trigger time does not leave its mode unchanged — the mode becomes 0
(Off). -/
theorem oneshot_hax_timer_mode_cex :
    (haxTimerStep 100 ⟨2, 100, true⟩).1.mode = 0 ∧ ((2 : ℤ) ≠ 0) := by decide

/-- Claim C8 (amended): a non-weekly timed hack timer (mode 2 or 3)
reaching its trigger time toggles `isOn` exactly once, drives the line to
the toggled value, and then reverts its mode to Off (0) and clears its
trigger — and a timer whose mode is Off or On (mode ≤ 1) never fires, so
the valve stays in its last-set state with no further automatic toggle. -/
theorem oneshot_hax_timer_self_cancels (m t : ℤ) (b : Bool) (hm : m = 2 ∨ m = 3) :
    haxTimerStep t ⟨m, t, b⟩ = (⟨0, 0, !b⟩, some (!b)) ∧
    (∀ (now : ℤ) (h : HaxTimer), h.mode ≤ 1 → haxTimerStep now h = (h, none)) := by
  constructor
  · rcases hm with rfl | rfl <;> simp [haxTimerStep]
  · intro now h hle
    have : ¬ (1 < h.mode) := by omega
    simp [haxTimerStep, this]

/-- Witness for the amended claim C8: a Timer10 timer firing at 100. -/
theorem oneshot_hax_timer_self_cancels_witness :
    haxTimerStep 100 ⟨2, 100, true⟩ = (⟨0, 0, false⟩, some false) ∧
    haxTimerStep 101 ⟨0, 0, false⟩ = (⟨0, 0, false⟩, none) := by
  obtain ⟨h1, h2⟩ := oneshot_hax_timer_self_cancels 2 100 true (Or.inl rfl)
  exact ⟨by simpa using h1, h2 101 ⟨0, 0, false⟩ (by decide)⟩

/-! ### Claim C9 — tank-level interrupt cooldown -/

/-- After `k` second-ticks the cooldown counter has been decremented `k`
times, saturating at zero. -/
theorem cooldownIter_noPinInterrupts (k : ℕ) (s : TankCtx) :
    (cooldownIter k s).noPinInterrupts = s.noPinInterrupts - k := by
  induction k generalizing s with
  | zero => rfl
  | succ k ih =>
    rw [cooldownIter, ih]
    rcases Nat.eq_zero_or_pos s.noPinInterrupts with h | h
    · simp [cooldownTick, h]
    · have hne : s.noPinInterrupts ≠ 0 := by omega
      simp only [cooldownTick, hne, if_true, ite_true, ne_eq, not_false_eq_true]
      omega

/-- Claim C9: every relay-safety-gated write sets the cooldown counter to
2; the counter is decremented once per second-tick (after `k` ticks it
reads `2 − k`, saturating at 0); and the echo interrupt handler is a
no-op — storing neither a sample nor an edge timestamp — exactly while
the counter is non-zero: with the counter at zero a rising edge stores
the timestamp and a falling edge stores the pulse width. -/
theorem tank_interrupt_cooldown (p : ℤ) (v : Bool) (s : TankCtx) :
    (safeRelayWrite p v s).noPinInterrupts = 2 ∧
    (∀ k : ℕ, (cooldownIter k (safeRelayWrite p v s)).noPinInterrupts = 2 - k) ∧
    (∀ (l : Bool) (m : ℤ) (u : TankCtx), u.noPinInterrupts ≠ 0 →
        waterTankUltrasonicEcho l m u = u) ∧
    (∀ (m : ℤ) (u : TankCtx), u.noPinInterrupts = 0 →
        (waterTankUltrasonicEcho true m u).echoTimer = m ∧
        (waterTankUltrasonicEcho false m u).tankLevel = m - u.echoTimer) := by
  refine ⟨rfl, fun k => ?_, fun l m u hu => ?_, fun m u hu => ?_⟩
  · rw [cooldownIter_noPinInterrupts]
    rfl
  · simp [waterTankUltrasonicEcho, hu]
  · constructor <;> simp [waterTankUltrasonicEcho, hu]

/-- Witness for claim C9: a gated write on pin 52, two cooldown ticks,
an ignored and a processed echo edge. -/
theorem tank_interrupt_cooldown_witness :
    (safeRelayWrite 52 true tankCtx0).noPinInterrupts = 2 ∧
    (cooldownIter 2 (safeRelayWrite 52 true tankCtx0)).noPinInterrupts = 0 ∧
    waterTankUltrasonicEcho true 777 (safeRelayWrite 52 true tankCtx0) =
      safeRelayWrite 52 true tankCtx0 ∧
    (waterTankUltrasonicEcho true 777 tankCtx0).echoTimer = 777 := by
  obtain ⟨h1, h2, h3, h4⟩ := tank_interrupt_cooldown 52 true tankCtx0
  exact ⟨h1, h2 2, h3 true 777 _ (by rw [h1]; decide), (h4 777 tankCtx0 rfl).1⟩

/-! ### Claim C10 — daily fertiliser-pump schedule -/

/-- Claim C10: with the fertiliser-pump automation switch enabled, the
per-second tick whose clock reads 07:10:00 (any weekday) switches the
pump on through the relay safety gate (cooldown counter set to 2), and
the tick reading 07:12:00 switches it off likewise; with the switch
disabled nothing happens; and the schedule never touches the
watering/fertilising cycle state and its effect on the pump does not
depend on that cycle state. -/
theorem daily_pump_schedule (c : Clock) (s : PumpCtx) :
    (c.hour = 7 → c.minute = 10 → c.second = 0 →
      (pumpEvents c true s).pumpOut = true ∧ (pumpEvents c true s).noPinInterrupts = 2) ∧
    (c.hour = 7 → c.minute = 12 → c.second = 0 →
      (pumpEvents c true s).pumpOut = false ∧ (pumpEvents c true s).noPinInterrupts = 2) ∧
    pumpEvents c false s = s ∧
    (∀ b : Bool,
      (pumpEvents c b s).fertStartTime = s.fertStartTime ∧
      (pumpEvents c b s).fertCursor = s.fertCursor ∧
      (pumpEvents c b s).fertDumpCount = s.fertDumpCount ∧
      (pumpEvents c b s).waterCursor = s.waterCursor) ∧
    (∀ (b : Bool) (t : PumpCtx), t.pumpOut = s.pumpOut →
      (pumpEvents c b t).pumpOut = (pumpEvents c b s).pumpOut) := by
  refine ⟨?_, ?_, ?_, ?_, ?_⟩
  · intro h7 h10 h0
    have hA : timeIs c (-1) 7 10 0 = true := by
      simp [timeIs, timeCheck, h7, h10, h0]
    have hB : timeIs c (-1) 7 12 0 = false := by
      simp [timeIs, timeCheck, h7, h10, h0]
    constructor <;> simp [pumpEvents, hA, hB]
  · intro h7 h12 h0
    have hB : timeIs c (-1) 7 12 0 = true := by
      simp [timeIs, timeCheck, h7, h12, h0]
    constructor <;> simp [pumpEvents, hB]
  · simp [pumpEvents]
  · intro b
    by_cases hA : (timeIs c (-1) 7 10 0 && b) = true <;>
      by_cases hB : (timeIs c (-1) 7 12 0 && b) = true <;>
        simp [pumpEvents, hA, hB]
  · intro b t ht
    by_cases hA : (timeIs c (-1) 7 10 0 && b) = true <;>
      by_cases hB : (timeIs c (-1) 7 12 0 && b) = true <;>
        simp [pumpEvents, hA, hB, ht]

/-- Witness for claim C10 at concrete 07:10:00 and 07:12:00 clock
readings. -/
theorem daily_pump_schedule_witness :
    (pumpEvents ⟨3, 7, 10, 0, 1700000000⟩ true pumpCtx0).pumpOut = true ∧
    (pumpEvents ⟨3, 7, 12, 0, 1700000120⟩ true pumpCtx0).pumpOut = false ∧
    pumpEvents ⟨3, 7, 10, 0, 1700000000⟩ false pumpCtx0 = pumpCtx0 := by
  refine ⟨((daily_pump_schedule ⟨3, 7, 10, 0, 1700000000⟩ pumpCtx0).1 rfl rfl rfl).1,
          ((daily_pump_schedule ⟨3, 7, 12, 0, 1700000120⟩ pumpCtx0).2.1 rfl rfl rfl).1,
          (daily_pump_schedule ⟨3, 7, 10, 0, 1700000000⟩ pumpCtx0).2.2.1⟩

/-! ### Claim C1 — spin-controller mutual exclusion -/

/-- The latch phase leaves the spin outputs, the lock and the desired
positions untouched. -/
theorem lineLatch_spin_lock (n : Bool) (i : ℤ) (s : SpinState) :
    (lineLatch n i s).spin = s.spin ∧ (lineLatch n i s).lock = s.lock ∧
    (lineLatch n i s).desired = s.desired := by
  unfold lineLatch
  split <;> exact ⟨rfl, rfl, rfl⟩

/-- Processing line `i` leaves every other line's `oldState` and spin
output untouched, and never changes any desired position. -/
theorem lineStep_other (reads : ℤ → Bool) (sc : Bool) (i : ℤ) (s : SpinState)
    (j : ℤ) (hj : j ≠ i) :
    (lineStep reads sc i s).oldState j = s.oldState j ∧
    (lineStep reads sc i s).spin j = s.spin j ∧
    (lineStep reads sc i s).desired = s.desired := by
  unfold lineStep lineLatch lineServo
  split_ifs <;> simp [hj]

/-- `LineEnv` for an unprocessed line survives the processing of a
different line. -/
theorem lineStep_lineEnv (reads : ℤ → Bool) (sc : Bool) (i : ℤ) (s : SpinState)
    (j : ℤ) (hj : j ≠ i) (h : LineEnv reads s j) :
    LineEnv reads (lineStep reads sc i s) j := by
  obtain ⟨ho, hs, _⟩ := lineStep_other reads sc i s j hj
  unfold LineEnv at h ⊢
  rw [ho, hs]
  exact h

/-- Line `i`'s spin output can go HIGH during its processing only when
the lock was free or already held by line `i` (the guard at line 293). -/
theorem lineStep_guard (reads : ℤ → Bool) (sc : Bool) (i : ℤ) (s : SpinState)
    (h : (lineStep reads sc i s).spin i = true) :
    s.spin i = true ∨ s.lock = i ∨ s.lock < 0 := by
  unfold lineStep lineLatch lineServo at h
  split_ifs at h <;> simp_all

/-- The lock-ownership invariant is insensitive to the latch phase. -/
theorem SpinInv_latch (n : Bool) (i : ℤ) (s : SpinState) :
    SpinInv (lineLatch n i s) ↔ SpinInv s := by
  obtain ⟨h1, h2, _⟩ := lineLatch_spin_lock n i s
  unfold SpinInv
  rw [h1, h2]

/-- Well-formedness is insensitive to the latch phase. -/
theorem SpinWF_latch (n : Bool) (i : ℤ) (s : SpinState) :
    SpinWF (lineLatch n i s) ↔ SpinWF s := by
  obtain ⟨h1, _, _⟩ := lineLatch_spin_lock n i s
  unfold SpinWF
  rw [h1]

/-- Servo phase, acquire branch (lines 292-299): when feedback disagrees
(or the position is unknown) and the lock is available, the spin output
of `i` is driven and `i` owns the lock. -/
theorem lineServo_acquire (reads : ℤ → Bool) (sc : Bool) (i : ℤ) (s : SpinState)
    (h1 : s.oldState i < 0 ∨ reads i ≠ s.desired i) (h2 : s.lock = i ∨ s.lock < 0) :
    (lineServo reads sc i s).spin = (fun j => if j = i then true else s.spin j) ∧
    (lineServo reads sc i s).lock = i := by
  unfold lineServo
  rw [if_pos h1, if_pos h2]
  exact ⟨rfl, rfl⟩

/-- Servo phase, waiting branch: when feedback disagrees but the lock is
taken by another line, nothing changes. -/
theorem lineServo_wait (reads : ℤ → Bool) (sc : Bool) (i : ℤ) (s : SpinState)
    (h1 : s.oldState i < 0 ∨ reads i ≠ s.desired i) (h2 : ¬(s.lock = i ∨ s.lock < 0)) :
    lineServo reads sc i s = s := by
  unfold lineServo
  rw [if_pos h1, if_neg h2]

/-- Servo phase, release branch (lines 300-303): an observed settling
transition turns the spin output LOW and frees the lock — with no check
that `i` owns it. -/
theorem lineServo_release (reads : ℤ → Bool) (sc : Bool) (i : ℤ) (s : SpinState)
    (h1 : ¬(s.oldState i < 0 ∨ reads i ≠ s.desired i))
    (h3 : s.oldState i ≠ (if reads i then 1 else 0)) :
    lineServo reads sc i s =
      { s with spin := fun j => if j = i then false else s.spin j, lock := -1 } := by
  unfold lineServo
  rw [if_neg h1, if_pos h3]

/-- Servo phase, content branch: position known and feedback agreeing with
the latched reading changes nothing. -/
theorem lineServo_content (reads : ℤ → Bool) (sc : Bool) (i : ℤ) (s : SpinState)
    (h1 : ¬(s.oldState i < 0 ∨ reads i ≠ s.desired i))
    (h3 : ¬(s.oldState i ≠ (if reads i then 1 else 0))) :
    lineServo reads sc i s = s := by
  unfold lineServo
  rw [if_neg h1, if_neg h3]

/-- Under the per-line environment assumption, processing one line
preserves the lock-ownership invariant and well-formedness. -/
theorem lineStep_inv (reads : ℤ → Bool) (sc : Bool) (i : ℤ) (s : SpinState)
    (hi0 : 0 ≤ i) (hi5 : i ≤ 5) (hWF : SpinWF s) (hInv : SpinInv s)
    (hEnv : LineEnv reads s i) :
    SpinInv (lineStep reads sc i s) ∧ SpinWF (lineStep reads sc i s) := by
  unfold lineStep
  rw [SpinInv_latch, SpinWF_latch]
  by_cases h1 : s.oldState i < 0 ∨ reads i ≠ s.desired i
  · by_cases h2 : s.lock = i ∨ s.lock < 0
    · -- acquire: drive HIGH, take the lock
      obtain ⟨hsp, hlk⟩ := lineServo_acquire reads sc i s h1 h2
      constructor
      · intro j hj
        rw [hsp] at hj
        rw [hlk]
        by_cases hji : j = i
        · omega
        · simp only [if_neg hji] at hj
          have hlj := hInv j hj
          rcases h2 with h2 | h2
          · omega
          · exact absurd hj (by simp [hWF j (Or.inl (by omega))])
      · intro j hj
        rw [hsp]
        by_cases hji : j = i
        · omega
        · simp only [if_neg hji]
          exact hWF j hj
    · rw [lineServo_wait reads sc i s h1 h2]
      exact ⟨hInv, hWF⟩
  · by_cases h3 : s.oldState i ≠ (if reads i then 1 else 0)
    · -- release: the environment assumption says the settling line was
      -- being driven, hence by the invariant it owns the lock, and the
      -- release turns exactly that line's output LOW
      push_neg at h1
      have hsp : s.spin i = true := hEnv (by omega) h3
      have hli : s.lock = i := hInv i hsp
      rw [lineServo_release reads sc i s (by push_neg; exact h1) h3]
      constructor
      · intro j hj
        by_cases hji : j = i
        · subst hji; simp at hj
        · simp only [if_neg hji] at hj
          have := hInv j hj
          omega
      · intro j hj
        by_cases hji : j = i
        · simp [hji]
        · simp only [if_neg hji]
          exact hWF j hj
    · rw [lineServo_content reads sc i s h1 h3]
      exact ⟨hInv, hWF⟩

set_option maxRecDepth 200000 in
/-- Counterexample to claim C1: from the post-`setup()` state, under the
feedback-read sequence `spinCexReads` (all reads being plain 0/1 levels on
the six feedback pins), the control loop reaches a state in which the spin
outputs of both line 0 and line 2 are driven HIGH simultaneously — more
than one line is actively spinning. -/
theorem spin_mutex_violation_cex :
    (spinRun spinCexReads spinInit).spin 0 = true ∧
    (spinRun spinCexReads spinInit).spin 2 = true ∧
    ((0 : ℤ) ≠ 2) := by decide

/-- Claim C1 (amended): a line begins spinning only when the SpinLock is
free or already held by that line (unconditionally); and provided no
line's feedback reading changes while that line is undriven, each servo
pass preserves the invariant that every driven spin output belongs to the
lock owner — hence at most one line is actively spinning.  (Without that
environment assumption the release branch at lines 300-303 frees the lock
without checking ownership, and two spin outputs can be driven at once,
as `spinRun spinCexReads spinInit` shows.) -/
theorem spin_guarded_conditional_mutex (reads : ℤ → Bool) (sc : Bool) (s : SpinState)
    (hWF : SpinWF s) (hInv : SpinInv s) (hEnv : SpinEnvOK reads s) :
    SpinInv (spinStep reads sc s) ∧ SpinWF (spinStep reads sc s) ∧
    (∀ j k : ℤ, (spinStep reads sc s).spin j = true →
      (spinStep reads sc s).spin k = true → j = k) ∧
    (∀ (i : ℤ) (u : SpinState), (lineStep reads sc i u).spin i = true →
      u.spin i = true ∨ u.lock = i ∨ u.lock < 0) := by
  have P1 := lineStep_inv reads sc 0 s (by decide) (by decide) hWF hInv (hEnv 0)
  have E1 : ∀ j : ℤ, j ≠ 0 → LineEnv reads (lineStep reads sc 0 s) j :=
    fun j hj => lineStep_lineEnv reads sc 0 s j hj (hEnv j)
  have P2 := lineStep_inv reads sc 1 _ (by decide) (by decide) P1.2 P1.1 (E1 1 (by decide))
  have E2 : ∀ j : ℤ, j ≠ 0 → j ≠ 1 →
      LineEnv reads (lineStep reads sc 1 (lineStep reads sc 0 s)) j :=
    fun j hj0 hj1 => lineStep_lineEnv reads sc 1 _ j hj1 (E1 j hj0)
  have P3 := lineStep_inv reads sc 2 _ (by decide) (by decide) P2.2 P2.1
    (E2 2 (by decide) (by decide))
  have E3 : ∀ j : ℤ, j ≠ 0 → j ≠ 1 → j ≠ 2 →
      LineEnv reads (lineStep reads sc 2 (lineStep reads sc 1 (lineStep reads sc 0 s))) j :=
    fun j hj0 hj1 hj2 => lineStep_lineEnv reads sc 2 _ j hj2 (E2 j hj0 hj1)
  have P4 := lineStep_inv reads sc 3 _ (by decide) (by decide) P3.2 P3.1
    (E3 3 (by decide) (by decide) (by decide))
  have E4 : ∀ j : ℤ, j ≠ 0 → j ≠ 1 → j ≠ 2 → j ≠ 3 →
      LineEnv reads (lineStep reads sc 3 (lineStep reads sc 2
        (lineStep reads sc 1 (lineStep reads sc 0 s)))) j :=
    fun j hj0 hj1 hj2 hj3 => lineStep_lineEnv reads sc 3 _ j hj3 (E3 j hj0 hj1 hj2)
  have P5 := lineStep_inv reads sc 4 _ (by decide) (by decide) P4.2 P4.1
    (E4 4 (by decide) (by decide) (by decide) (by decide))
  have E5 : ∀ j : ℤ, j ≠ 0 → j ≠ 1 → j ≠ 2 → j ≠ 3 → j ≠ 4 →
      LineEnv reads (lineStep reads sc 4 (lineStep reads sc 3 (lineStep reads sc 2
        (lineStep reads sc 1 (lineStep reads sc 0 s))))) j :=
    fun j hj0 hj1 hj2 hj3 hj4 => lineStep_lineEnv reads sc 4 _ j hj4 (E4 j hj0 hj1 hj2 hj3)
  have P6 := lineStep_inv reads sc 5 _ (by decide) (by decide) P5.2 P5.1
    (E5 5 (by decide) (by decide) (by decide) (by decide) (by decide))
  refine ⟨P6.1, P6.2, fun j k hj hk => ?_, fun i u h => lineStep_guard reads sc i u h⟩
  have h1 := P6.1 j hj
  have h2 := P6.1 k hk
  omega

/-! ### Claim C4 — watering cycle sweep -/

/-- `wClose` changes only the per-line solenoid commands. -/
theorem wClose_fields (s : WaterState) :
    (wClose s).cursor = s.cursor ∧ (wClose s).finishTime = s.finishTime ∧
    (wClose s).tallies = s.tallies ∧ (wClose s).totalAdded = s.totalAdded := by
  unfold wClose
  split <;> exact ⟨rfl, rfl, rfl, rfl⟩

/-- A watering tick before the due time changes nothing. -/
theorem wTick_stall (d : Day) (now : ℤ) (s : WaterState) (h : now < s.finishTime) :
    wTick d now s = s := by
  unfold wTick
  rw [if_neg]
  rintro ⟨-, h2⟩
  omega

/-- A watering tick with the cursor idle changes nothing. -/
theorem wTick_idle (d : Day) (now : ℤ) (s : WaterState) (h : s.cursor = -2) :
    wTick d now s = s := by
  unfold wTick
  rw [if_neg]
  rintro ⟨h1, -⟩
  omega

/-- Peeling the first tick off a watering run. -/
theorem wRun_succ (d : Day) (t : ℤ) (n : ℕ) (s : WaterState) :
    wRun d t (n + 1) s = wRun d (t + 1) n (wTick d t s) := rfl

/-- Peeling the first tick off a watering trace. -/
theorem wTrace_succ (d : Day) (t : ℤ) (n : ℕ) (s : WaterState) :
    wTrace d t (n + 1) s = (wTick d t s).cursor :: wTrace d (t + 1) n (wTick d t s) := rfl

/-- Splitting a watering run at an intermediate tick count. -/
theorem wRun_add (d : Day) (m : ℕ) : ∀ (t : ℤ) (n : ℕ) (s : WaterState),
    wRun d t (m + n) s = wRun d (t + m) n (wRun d t m s) := by
  induction m with
  | zero => intro t n s; simp [wRun]
  | succ m ih =>
    intro t n s
    rw [show m + 1 + n = m + n + 1 from by omega, wRun_succ, ih (t + 1) n (wTick d t s),
      ← wRun_succ]
    have ht : t + ((m : ℤ) + 1) = (t + 1) + (m : ℤ) := by ring
    push_cast
    rw [ht]

/-- Splitting a watering trace at an intermediate tick count. -/
theorem wTrace_add (d : Day) (m : ℕ) : ∀ (t : ℤ) (n : ℕ) (s : WaterState),
    wTrace d t (m + n) s = wTrace d t m s ++ wTrace d (t + m) n (wRun d t m s) := by
  induction m with
  | zero => intro t n s; simp [wTrace, wRun]
  | succ m ih =>
    intro t n s
    rw [show m + 1 + n = m + n + 1 from by omega, wTrace_succ, ih (t + 1) n (wTick d t s),
      wTrace_succ, wRun_succ, List.cons_append]
    have ht : t + ((m : ℤ) + 1) = (t + 1) + (m : ℤ) := by ring
    push_cast
    rw [ht]

/-- A run that stays strictly before the due time stalls: the state is
unchanged and the cursor trace is constant. -/
theorem wRun_stall (d : Day) (k : ℕ) : ∀ (t : ℤ) (s : WaterState),
    t + k ≤ s.finishTime →
    wRun d t k s = s ∧ wTrace d t k s = List.replicate k s.cursor := by
  induction k with
  | zero => intro t s h; exact ⟨rfl, rfl⟩
  | succ k ih =>
    intro t s h
    have hst : wTick d t s = s := wTick_stall d t s (by push_cast at h; omega)
    obtain ⟨ih1, ih2⟩ := ih (t + 1) s (by push_cast at h ⊢; omega)
    constructor
    · rw [wRun_succ, hst, ih1]
    · rw [wTrace_succ, hst, ih2, List.replicate_succ]

/-- A firing watering tick from cursor `c ∈ [-1, 4]`: the cursor advances
to `c + 1`, the tallies are untouched, and the due time becomes
`now + dose` when the line is opened (dose at least the buffer 60) and is
untouched otherwise. -/
theorem wTick_fire (d : Day) (now : ℤ) (s : WaterState) (c : ℤ)
    (hc : s.cursor = c) (h1 : -1 ≤ c) (h2 : c ≤ 4) (hf : s.finishTime ≤ now) :
    (wTick d now s).cursor = c + 1 ∧
    (wTick d now s).tallies = s.tallies ∧
    (wTick d now s).finishTime =
      (if 60 ≤ (calcWater s.tallies d (c + 1) : ℤ)
       then now + (calcWater s.tallies d (c + 1) : ℤ) else s.finishTime) := by
  obtain ⟨e1, e2, e3, e4⟩ := wClose_fields s
  unfold wTick
  rw [if_pos ⟨by omega, hf⟩]
  unfold wAdvance
  rw [e1, e2, e3, hc]
  rw [if_neg (by omega : ¬ (6 : ℤ) ≤ c + 1)]
  by_cases hbuf : (60 : ℤ) ≤ (calcWater s.tallies d (c + 1) : ℤ)
  · rw [if_pos (by simpa [bufferSize] using hbuf), if_pos hbuf]
    exact ⟨rfl, rfl, rfl⟩
  · rw [if_neg (by simpa [bufferSize] using hbuf), if_neg hbuf]
    exact ⟨rfl, rfl, rfl⟩

/-- A firing watering tick from cursor 5 returns the cycle to idle. -/
theorem wTick_finish (d : Day) (now : ℤ) (s : WaterState)
    (hc : s.cursor = 5) (hf : s.finishTime ≤ now) :
    (wTick d now s).cursor = -2 ∧ (wTick d now s).finishTime = 0 ∧
    (wTick d now s).tallies = s.tallies := by
  obtain ⟨e1, e2, e3, e4⟩ := wClose_fields s
  unfold wTick
  rw [if_pos ⟨by omega, hf⟩]
  unfold wAdvance
  rw [e1, hc]
  rw [if_pos (by omega : (6 : ℤ) ≤ 5 + 1)]
  exact ⟨rfl, rfl, e3⟩

/-- One line's block of the watering sweep: starting due at time `T` with
cursor `c ∈ [-1, 4]`, after some `g ≥ 1` consecutive ticks the cursor has
advanced exactly once to `c + 1` (the trace is constant at `c + 1`), the
state is due no later than `T + g`, and the tallies are untouched. -/
theorem wBlock (d : Day) (s : WaterState) (T c : ℤ)
    (hc : s.cursor = c) (h1 : -1 ≤ c) (h2 : c ≤ 4) (hf : s.finishTime ≤ T) :
    ∃ g : ℕ, 1 ≤ g ∧
      wTrace d T g s = List.replicate g (c + 1) ∧
      (wRun d T g s).cursor = c + 1 ∧
      (wRun d T g s).finishTime ≤ T + g ∧
      (wRun d T g s).tallies = s.tallies := by
  obtain ⟨e1, e2, e3⟩ := wTick_fire d T s c hc h1 h2 hf
  by_cases hbuf : (60 : ℤ) ≤ (calcWater s.tallies d (c + 1) : ℤ)
  · rw [if_pos hbuf] at e3
    have h60 : 60 ≤ calcWater s.tallies d (c + 1) := by exact_mod_cast hbuf
    obtain ⟨b, hb⟩ : ∃ b : ℕ, calcWater s.tallies d (c + 1) = b + 1 :=
      ⟨calcWater s.tallies d (c + 1) - 1, by omega⟩
    have hfin : (wTick d T s).finishTime = T + ((b : ℤ) + 1) := by
      rw [e3, hb]; push_cast; ring
    obtain ⟨hs1, hs2⟩ := wRun_stall d b (T + 1) (wTick d T s) (by rw [hfin]; omega)
    refine ⟨b + 1, by omega, ?_, ?_, ?_, ?_⟩
    · rw [wTrace_succ, hs2, e1, List.replicate_succ]
    · rw [wRun_succ, hs1, e1]
    · rw [wRun_succ, hs1, hfin]; push_cast; omega
    · rw [wRun_succ, hs1, e2]
  · rw [if_neg hbuf] at e3
    refine ⟨1, le_refl 1, ?_, ?_, ?_, ?_⟩
    · rw [wTrace_succ, e1]; rfl
    · rw [wRun_succ]; exact e1
    · rw [wRun_succ]
      show (wTick d T s).finishTime ≤ T + ((1 : ℕ) : ℤ)
      rw [e3]; push_cast; omega
    · rw [wRun_succ]; exact e2

/-- Claim C4: from any state with cursor Starting (−1) and due time
elapsed, running the watering sweep on consecutive per-second ticks
produces a cursor trace consisting of one non-empty block for each line
0,1,2,3,4,5 in ascending order followed by Idle (−2): every line is
visited exactly once, exactly one line is active at a time, and the cycle
ends idle with the due time cleared. -/
theorem watering_cycle_visits_each_line_once (d : Day) (t0 : ℤ) (s : WaterState)
    (hc : s.cursor = -1) (hf : s.finishTime ≤ t0) :
    ∃ g0 g1 g2 g3 g4 g5 : ℕ, 1 ≤ g0 ∧ 1 ≤ g1 ∧ 1 ≤ g2 ∧ 1 ≤ g3 ∧ 1 ≤ g4 ∧ 1 ≤ g5 ∧
      wTrace d t0 (g0 + (g1 + (g2 + (g3 + (g4 + (g5 + 1)))))) s =
        List.replicate g0 0 ++ (List.replicate g1 1 ++ (List.replicate g2 2 ++
          (List.replicate g3 3 ++ (List.replicate g4 4 ++
            (List.replicate g5 5 ++ [-2]))))) ∧
      (wRun d t0 (g0 + (g1 + (g2 + (g3 + (g4 + (g5 + 1)))))) s).cursor = -2 ∧
      (wRun d t0 (g0 + (g1 + (g2 + (g3 + (g4 + (g5 + 1)))))) s).finishTime = 0 := by
  obtain ⟨g0, hg0, tr0, c0, f0, ta0⟩ := wBlock d s t0 (-1) hc (by omega) (by omega) hf
  obtain ⟨g1, hg1, tr1, c1, f1, ta1⟩ :=
    wBlock d (wRun d t0 g0 s) (t0 + g0) 0 (by omega) (by omega) (by omega) f0
  obtain ⟨g2, hg2, tr2, c2, f2, ta2⟩ :=
    wBlock d (wRun d (t0 + g0) g1 (wRun d t0 g0 s)) (t0 + g0 + g1) 1
      (by omega) (by omega) (by omega) f1
  obtain ⟨g3, hg3, tr3, c3, f3, ta3⟩ :=
    wBlock d (wRun d (t0 + g0 + g1) g2 (wRun d (t0 + g0) g1 (wRun d t0 g0 s)))
      (t0 + g0 + g1 + g2) 2 (by omega) (by omega) (by omega) f2
  obtain ⟨g4, hg4, tr4, c4, f4, ta4⟩ :=
    wBlock d (wRun d (t0 + g0 + g1 + g2) g3 (wRun d (t0 + g0 + g1) g2
        (wRun d (t0 + g0) g1 (wRun d t0 g0 s))))
      (t0 + g0 + g1 + g2 + g3) 3 (by omega) (by omega) (by omega) f3
  obtain ⟨g5, hg5, tr5, c5, f5, ta5⟩ :=
    wBlock d (wRun d (t0 + g0 + g1 + g2 + g3) g4 (wRun d (t0 + g0 + g1 + g2) g3
        (wRun d (t0 + g0 + g1) g2 (wRun d (t0 + g0) g1 (wRun d t0 g0 s)))))
      (t0 + g0 + g1 + g2 + g3 + g4) 4 (by omega) (by omega) (by omega) f4
  obtain ⟨e61, e62, e63⟩ := wTick_finish d (t0 + g0 + g1 + g2 + g3 + g4 + g5)
    (wRun d (t0 + g0 + g1 + g2 + g3 + g4) g5 (wRun d (t0 + g0 + g1 + g2 + g3) g4
      (wRun d (t0 + g0 + g1 + g2) g3 (wRun d (t0 + g0 + g1) g2
        (wRun d (t0 + g0) g1 (wRun d t0 g0 s))))))
    (by omega) f5
  refine ⟨g0, g1, g2, g3, g4, g5, hg0, hg1, hg2, hg3, hg4, hg5, ?_, ?_, ?_⟩
  · rw [wTrace_add d g0 t0 _ s, tr0,
      wTrace_add d g1 (t0 + g0) _ _, tr1,
      wTrace_add d g2 (t0 + g0 + g1) _ _, tr2,
      wTrace_add d g3 (t0 + g0 + g1 + g2) _ _, tr3,
      wTrace_add d g4 (t0 + g0 + g1 + g2 + g3) _ _, tr4,
      wTrace_add d g5 (t0 + g0 + g1 + g2 + g3 + g4) _ _, tr5,
      wTrace_succ, e61]
    norm_num
    rfl
  · rw [wRun_add d g0 t0 _ s,
      wRun_add d g1 (t0 + g0) _ _,
      wRun_add d g2 (t0 + g0 + g1) _ _,
      wRun_add d g3 (t0 + g0 + g1 + g2) _ _,
      wRun_add d g4 (t0 + g0 + g1 + g2 + g3) _ _,
      wRun_add d g5 (t0 + g0 + g1 + g2 + g3 + g4) _ _,
      wRun_succ]
    exact e61
  · rw [wRun_add d g0 t0 _ s,
      wRun_add d g1 (t0 + g0) _ _,
      wRun_add d g2 (t0 + g0 + g1) _ _,
      wRun_add d g3 (t0 + g0 + g1 + g2) _ _,
      wRun_add d g4 (t0 + g0 + g1 + g2 + g3) _ _,
      wRun_add d g5 (t0 + g0 + g1 + g2 + g3 + g4) _ _,
      wRun_succ]
    exact e62

/-- Witness for claim C4: an invocation over a day record with no rain and
zero maximum temperature and all tallies at their seeded level 20, for
which every computed dose is 0 and every line is skipped. -/
theorem watering_cycle_visits_each_line_once_witness :
    ∃ g0 g1 g2 g3 g4 g5 : ℕ, 1 ≤ g0 ∧ 1 ≤ g1 ∧ 1 ≤ g2 ∧ 1 ≤ g3 ∧ 1 ≤ g4 ∧ 1 ≤ g5 ∧
      wTrace ⟨0, 0⟩ 100 (g0 + (g1 + (g2 + (g3 + (g4 + (g5 + 1))))))
          ⟨-1, 0, fun _ => 20, 0, fun _ => false⟩ =
        List.replicate g0 0 ++ (List.replicate g1 1 ++ (List.replicate g2 2 ++
          (List.replicate g3 3 ++ (List.replicate g4 4 ++
            (List.replicate g5 5 ++ [-2]))))) ∧
      (wRun ⟨0, 0⟩ 100 (g0 + (g1 + (g2 + (g3 + (g4 + (g5 + 1))))))
          ⟨-1, 0, fun _ => 20, 0, fun _ => false⟩).cursor = -2 ∧
      (wRun ⟨0, 0⟩ 100 (g0 + (g1 + (g2 + (g3 + (g4 + (g5 + 1))))))
          ⟨-1, 0, fun _ => 20, 0, fun _ => false⟩).finishTime = 0 :=
  watering_cycle_visits_each_line_once ⟨0, 0⟩ 100
    ⟨-1, 0, fun _ => 20, 0, fun _ => false⟩ rfl (by norm_num)

/-! ### Claim C5 — fertilising priming offsets -/

/-- `fertEvent0` touches only tap water and the cooldown counter. -/
theorem fertEvent0_fields (now : ℤ) (s : FertState) :
    (fertEvent0 now s).startTime = s.startTime ∧ (fertEvent0 now s).cursor = s.cursor ∧
    (fertEvent0 now s).dumpCount = s.dumpCount ∧
    (fertEvent0 now s).finishTime = s.finishTime ∧
    (fertEvent0 now s).lineOn = s.lineOn ∧ (fertEvent0 now s).pump = s.pump ∧
    (fertEvent0 now s).fert = s.fert := by
  unfold fertEvent0
  split <;> exact ⟨rfl, rfl, rfl, rfl, rfl, rfl, rfl⟩

/-- `fertEvent32` touches only the relays and the cooldown counter. -/
theorem fertEvent32_fields (now : ℤ) (s : FertState) :
    (fertEvent32 now s).startTime = s.startTime ∧ (fertEvent32 now s).cursor = s.cursor ∧
    (fertEvent32 now s).dumpCount = s.dumpCount ∧
    (fertEvent32 now s).finishTime = s.finishTime ∧
    (fertEvent32 now s).lineOn = s.lineOn := by
  unfold fertEvent32
  split <;> exact ⟨rfl, rfl, rfl, rfl, rfl⟩

/-- `fertEvent40` touches only the relays and the cooldown counter. -/
theorem fertEvent40_fields (now : ℤ) (s : FertState) :
    (fertEvent40 now s).startTime = s.startTime ∧ (fertEvent40 now s).cursor = s.cursor ∧
    (fertEvent40 now s).dumpCount = s.dumpCount ∧
    (fertEvent40 now s).finishTime = s.finishTime ∧
    (fertEvent40 now s).lineOn = s.lineOn := by
  unfold fertEvent40
  split <;> exact ⟨rfl, rfl, rfl, rfl, rfl⟩

/-- A non-firing `fertEvent72` changes nothing. -/
theorem fertEvent72_neg (now : ℤ) (s : FertState) (h : now ≠ s.startTime + 72) :
    fertEvent72 now s = s := by
  unfold fertEvent72
  rw [if_neg h]

/-- Away from the 72-second mark, the priming events leave the dispense
machinery, `startTime` and the line commands untouched. -/
theorem fertEvents_no72 (now : ℤ) (s : FertState) (hne : now ≠ s.startTime + 72) :
    (fertEvents now s).cursor = s.cursor ∧ (fertEvents now s).startTime = s.startTime ∧
    (fertEvents now s).dumpCount = s.dumpCount ∧
    (fertEvents now s).finishTime = s.finishTime ∧
    (fertEvents now s).lineOn = s.lineOn := by
  obtain ⟨a1, a2, a3, a4, a5, -, -⟩ := fertEvent0_fields now s
  obtain ⟨b1, b2, b3, b4, b5⟩ := fertEvent32_fields now (fertEvent0 now s)
  obtain ⟨c1, c2, c3, c4, c5⟩ := fertEvent40_fields now (fertEvent32 now (fertEvent0 now s))
  have h72 : fertEvent72 now (fertEvent40 now (fertEvent32 now (fertEvent0 now s))) =
      fertEvent40 now (fertEvent32 now (fertEvent0 now s)) :=
    fertEvent72_neg now _ (by rw [c1, b1, a1]; exact hne)
  unfold fertEvents
  rw [h72]
  exact ⟨by rw [c2, b2, a2], by rw [c1, b1, a1], by rw [c3, b3, a3],
    by rw [c4, b4, a4], by rw [c5, b5, a5]⟩

/-- With `startTime` cleared and the epoch clock beyond 72, the priming
events do nothing at all. -/
theorem fertEvents_noop (now : ℤ) (s : FertState) (h0 : s.startTime = 0) (h72 : 72 < now) :
    fertEvents now s = s := by
  unfold fertEvents fertEvent0 fertEvent32 fertEvent40 fertEvent72
  rw [if_neg (by omega : ¬ now = s.startTime),
    if_neg (by omega : ¬ now = s.startTime + 32),
    if_neg (by omega : ¬ now = s.startTime + 40),
    if_neg (by omega : ¬ now = s.startTime + 72)]

/-- A dispense tick with the cursor idle changes nothing. -/
theorem fertDispense_idle (ft : ℤ → ℤ) (now : ℤ) (s : FertState) (h : s.cursor = -2) :
    fertDispense ft now s = s := by
  unfold fertDispense
  rw [if_neg]
  rintro ⟨h1, -⟩
  omega

/-- Claim C5: with the priming phase started at epoch second `start > 0`
(`startTime = start`), the per-second fertilising events behave as
follows — at `start + 0` tap water opens (pump and valve untouched); at
`start + 32` tap water closes and pump and fertiliser valve open; at
`start + 40` tap water reopens and pump and valve close; at `start + 72`
tap water closes, the dispense cursor becomes Starting (−1) and
`startTime` is cleared; and on every earlier tick the dispense cursor
stays Idle, so priming completes all four offsets before dispensing
begins. -/
theorem fert_priming_offsets (ft : ℤ → ℤ) (start : ℤ) (s : FertState)
    (hst : s.startTime = start) (hpos : 0 < start) :
    ((fertEvents start s).tap = true ∧ (fertEvents start s).pump = s.pump ∧
      (fertEvents start s).fert = s.fert ∧ (fertEvents start s).cursor = s.cursor ∧
      (fertEvents start s).startTime = start) ∧
    ((fertEvents (start + 32) s).tap = false ∧ (fertEvents (start + 32) s).pump = true ∧
      (fertEvents (start + 32) s).fert = true ∧
      (fertEvents (start + 32) s).cursor = s.cursor ∧
      (fertEvents (start + 32) s).startTime = start) ∧
    ((fertEvents (start + 40) s).tap = true ∧ (fertEvents (start + 40) s).pump = false ∧
      (fertEvents (start + 40) s).fert = false ∧
      (fertEvents (start + 40) s).cursor = s.cursor ∧
      (fertEvents (start + 40) s).startTime = start) ∧
    ((fertEvents (start + 72) s).tap = false ∧ (fertEvents (start + 72) s).cursor = -1 ∧
      (fertEvents (start + 72) s).startTime = 0 ∧
      (fertEvents (start + 72) s).pump = s.pump ∧
      (fertEvents (start + 72) s).fert = s.fert) ∧
    (s.cursor = -2 → ∀ now : ℤ, now < start + 72 → (fertTick ft now s).cursor = -2) := by
  subst hst
  refine ⟨?_, ?_, ?_, ?_, ?_⟩
  · simp [fertEvents, fertEvent0, fertEvent32, fertEvent40, fertEvent72]
  · simp [fertEvents, fertEvent0, fertEvent32, fertEvent40, fertEvent72]
  · simp [fertEvents, fertEvent0, fertEvent32, fertEvent40, fertEvent72]
  · simp [fertEvents, fertEvent0, fertEvent32, fertEvent40, fertEvent72]
  · intro hcur now hlt
    obtain ⟨e1, -, -, -, -⟩ := fertEvents_no72 now s (by omega)
    unfold fertTick
    rw [fertDispense_idle ft now (fertEvents now s) (by rw [e1, hcur])]
    rw [e1, hcur]

/-- Witness for claim C5 at the concrete trigger state `fertStart 1000`. -/
theorem fert_priming_offsets_witness :
    ((fertEvents 1000 (fertStart 1000)).tap = true ∧
      (fertEvents 1000 (fertStart 1000)).pump = (fertStart 1000).pump ∧
      (fertEvents 1000 (fertStart 1000)).fert = (fertStart 1000).fert ∧
      (fertEvents 1000 (fertStart 1000)).cursor = (fertStart 1000).cursor ∧
      (fertEvents 1000 (fertStart 1000)).startTime = 1000) ∧
    ((fertEvents (1000 + 32) (fertStart 1000)).tap = false ∧
      (fertEvents (1000 + 32) (fertStart 1000)).pump = true ∧
      (fertEvents (1000 + 32) (fertStart 1000)).fert = true ∧
      (fertEvents (1000 + 32) (fertStart 1000)).cursor = (fertStart 1000).cursor ∧
      (fertEvents (1000 + 32) (fertStart 1000)).startTime = 1000) ∧
    ((fertEvents (1000 + 40) (fertStart 1000)).tap = true ∧
      (fertEvents (1000 + 40) (fertStart 1000)).pump = false ∧
      (fertEvents (1000 + 40) (fertStart 1000)).fert = false ∧
      (fertEvents (1000 + 40) (fertStart 1000)).cursor = (fertStart 1000).cursor ∧
      (fertEvents (1000 + 40) (fertStart 1000)).startTime = 1000) ∧
    ((fertEvents (1000 + 72) (fertStart 1000)).tap = false ∧
      (fertEvents (1000 + 72) (fertStart 1000)).cursor = -1 ∧
      (fertEvents (1000 + 72) (fertStart 1000)).startTime = 0 ∧
      (fertEvents (1000 + 72) (fertStart 1000)).pump = (fertStart 1000).pump ∧
      (fertEvents (1000 + 72) (fertStart 1000)).fert = (fertStart 1000).fert) ∧
    ((fertStart 1000).cursor = -2 → ∀ now : ℤ, now < 1000 + 72 →
      (fertTick sourceFertTimes now (fertStart 1000)).cursor = -2) :=
  fert_priming_offsets sourceFertTimes 1000 (fertStart 1000) rfl (by decide)

/-! ### Claim C6 — fertilising cycle: one priming, three sweeps -/

/-- `fertClose` changes only the per-line solenoid commands. -/
theorem fertClose_fields (s : FertState) :
    (fertClose s).cursor = s.cursor ∧ (fertClose s).finishTime = s.finishTime ∧
    (fertClose s).dumpCount = s.dumpCount ∧ (fertClose s).startTime = s.startTime := by
  unfold fertClose
  split <;> exact ⟨rfl, rfl, rfl, rfl⟩

/-- Outside the priming window, a dispense tick before the due time
changes nothing. -/
theorem fertTick_stall (ft : ℤ → ℤ) (now : ℤ) (s : FertState)
    (h0 : s.startTime = 0) (h72 : 72 < now) (h : now < s.finishTime) :
    fertTick ft now s = s := by
  unfold fertTick
  rw [fertEvents_noop now s h0 h72]
  unfold fertDispense
  rw [if_neg]
  rintro ⟨-, h2⟩
  omega

/-- Peeling the first tick off a fertilising run. -/
theorem fertRun_succ (ft : ℤ → ℤ) (t : ℤ) (n : ℕ) (s : FertState) :
    fertRun ft t (n + 1) s = fertRun ft (t + 1) n (fertTick ft t s) := rfl

/-- Peeling the first tick off a fertilising trace. -/
theorem fertTrace_succ (ft : ℤ → ℤ) (t : ℤ) (n : ℕ) (s : FertState) :
    fertTrace ft t (n + 1) s =
      (fertTick ft t s).cursor :: fertTrace ft (t + 1) n (fertTick ft t s) := rfl

/-- Splitting a fertilising run at an intermediate tick count. -/
theorem fertRun_add (ft : ℤ → ℤ) (m : ℕ) : ∀ (t : ℤ) (n : ℕ) (s : FertState),
    fertRun ft t (m + n) s = fertRun ft (t + m) n (fertRun ft t m s) := by
  induction m with
  | zero => intro t n s; simp [fertRun]
  | succ m ih =>
    intro t n s
    rw [show m + 1 + n = m + n + 1 from by omega, fertRun_succ,
      ih (t + 1) n (fertTick ft t s), ← fertRun_succ]
    have ht : t + ((m : ℤ) + 1) = (t + 1) + (m : ℤ) := by ring
    push_cast
    rw [ht]

/-- Splitting a fertilising trace at an intermediate tick count. -/
theorem fertTrace_add (ft : ℤ → ℤ) (m : ℕ) : ∀ (t : ℤ) (n : ℕ) (s : FertState),
    fertTrace ft t (m + n) s =
      fertTrace ft t m s ++ fertTrace ft (t + m) n (fertRun ft t m s) := by
  induction m with
  | zero => intro t n s; simp [fertTrace, fertRun]
  | succ m ih =>
    intro t n s
    rw [show m + 1 + n = m + n + 1 from by omega, fertTrace_succ,
      ih (t + 1) n (fertTick ft t s), fertTrace_succ, fertRun_succ, List.cons_append]
    have ht : t + ((m : ℤ) + 1) = (t + 1) + (m : ℤ) := by ring
    push_cast
    rw [ht]

/-- Outside the priming window, a run that stays strictly before the due
time stalls. -/
theorem fertRun_stall (ft : ℤ → ℤ) (k : ℕ) : ∀ (t : ℤ) (s : FertState),
    s.startTime = 0 → 72 < t → t + k ≤ s.finishTime →
    fertRun ft t k s = s ∧ fertTrace ft t k s = List.replicate k s.cursor := by
  induction k with
  | zero => intro t s h0 h72 h; exact ⟨rfl, rfl⟩
  | succ k ih =>
    intro t s h0 h72 h
    have hst : fertTick ft t s = s := fertTick_stall ft t s h0 h72 (by push_cast at h; omega)
    obtain ⟨ih1, ih2⟩ := ih (t + 1) s h0 (by omega) (by push_cast at h ⊢; omega)
    constructor
    · rw [fertRun_succ, hst, ih1]
    · rw [fertTrace_succ, hst, ih2, List.replicate_succ]

/-- A firing dispense tick from cursor `c ∈ [-1, 4]`, outside the priming
window: the cursor advances to `c + 1`; the line is opened — with the due
time set to exactly `now + duration` — precisely when its configured
duration is positive, and otherwise left closed with the due time
untouched. -/
theorem fertTick_fire (ft : ℤ → ℤ) (now : ℤ) (u : FertState) (c : ℤ)
    (h0 : u.startTime = 0) (h72 : 72 < now) (hc : u.cursor = c)
    (h1 : -1 ≤ c) (h2 : c ≤ 4) (hf : u.finishTime ≤ now) :
    (fertTick ft now u).cursor = c + 1 ∧
    (fertTick ft now u).startTime = 0 ∧
    (fertTick ft now u).dumpCount = u.dumpCount ∧
    (fertTick ft now u).finishTime =
      (if 0 < ft (c + 1) then now + ft (c + 1) else u.finishTime) ∧
    (0 < ft (c + 1) → (fertTick ft now u).lineOn (c + 1) = true) := by
  unfold fertTick
  rw [fertEvents_noop now u h0 h72]
  unfold fertDispense
  rw [if_pos ⟨by omega, hf⟩]
  obtain ⟨e1, e2, e3, e4⟩ := fertClose_fields u
  unfold fertAdvance
  rw [e1, e2, hc]
  rw [if_neg (by omega : ¬ (6 : ℤ) ≤ c + 1)]
  by_cases hpos : 0 < ft (c + 1)
  · rw [if_pos hpos, if_pos hpos]
    exact ⟨rfl, e4.trans h0, e3, rfl, fun _ => by simp⟩
  · rw [if_neg hpos, if_neg hpos]
    exact ⟨rfl, e4.trans h0, e3, rfl, fun hp => absurd hp hpos⟩

/-- A firing dispense tick from cursor 5, outside the priming window:
the sweep completes — the third completed sweep returns the cycle to idle
with the repetition counter reset, an earlier one restarts the sweep with
the counter incremented. -/
theorem fertTick_finish (ft : ℤ → ℤ) (now : ℤ) (u : FertState)
    (h0 : u.startTime = 0) (h72 : 72 < now) (hc : u.cursor = 5) (hf : u.finishTime ≤ now) :
    (fertTick ft now u).cursor = (if u.dumpCount + 1 = 3 then -2 else -1) ∧
    (fertTick ft now u).dumpCount = (if u.dumpCount + 1 = 3 then 0 else u.dumpCount + 1) ∧
    (fertTick ft now u).finishTime = 0 ∧
    (fertTick ft now u).startTime = 0 := by
  unfold fertTick
  rw [fertEvents_noop now u h0 h72]
  unfold fertDispense
  rw [if_pos ⟨by omega, hf⟩]
  obtain ⟨e1, e2, e3, e4⟩ := fertClose_fields u
  unfold fertAdvance
  rw [e1, e3, hc]
  rw [if_pos (by omega : (6 : ℤ) ≤ 5 + 1)]
  by_cases hd : u.dumpCount + 1 = 3
  · rw [if_pos hd, if_pos hd, if_pos hd]
    exact ⟨rfl, rfl, rfl, e4.trans h0⟩
  · rw [if_neg hd, if_neg hd, if_neg hd]
    exact ⟨rfl, rfl, rfl, e4.trans h0⟩

/-- One line's block of a dispense sweep, outside the priming window:
from cursor `c ∈ [-1, 4]` and due at `T`, after exactly
`fertGap ft (c + 1)` ticks the cursor has advanced once to `c + 1`, the
trace is constant at `c + 1`, the repetition counter and `startTime` are
untouched, and the state is due no later than the end of the block. -/
theorem fertBlock (ft : ℤ → ℤ) (u : FertState) (T c : ℤ)
    (h0 : u.startTime = 0) (h72 : 72 < T) (hc : u.cursor = c)
    (h1 : -1 ≤ c) (h2 : c ≤ 4) (hf : u.finishTime ≤ T) :
    fertTrace ft T (fertGap ft (c + 1)) u = List.replicate (fertGap ft (c + 1)) (c + 1) ∧
    (fertRun ft T (fertGap ft (c + 1)) u).cursor = c + 1 ∧
    (fertRun ft T (fertGap ft (c + 1)) u).startTime = 0 ∧
    (fertRun ft T (fertGap ft (c + 1)) u).dumpCount = u.dumpCount ∧
    (fertRun ft T (fertGap ft (c + 1)) u).finishTime ≤ T + fertGap ft (c + 1) := by
  obtain ⟨e1, e2, e3, e4, -⟩ := fertTick_fire ft T u c h0 h72 hc h1 h2 hf
  by_cases hpos : 0 < ft (c + 1)
  · rw [if_pos hpos] at e4
    have ha : fertGap ft (c + 1) = (ft (c + 1)).toNat := by unfold fertGap; rw [if_pos hpos]
    obtain ⟨b, hb⟩ : ∃ b : ℕ, fertGap ft (c + 1) = b + 1 :=
      ⟨fertGap ft (c + 1) - 1, by rw [ha]; omega⟩
    have hfin : (fertTick ft T u).finishTime = T + ((b : ℤ) + 1) := by
      rw [e4]
      have hb2 : (ft (c + 1)).toNat = b + 1 := by rw [← ha, hb]
      omega
    obtain ⟨hs1, hs2⟩ := fertRun_stall ft b (T + 1) (fertTick ft T u) e2 (by omega)
      (by rw [hfin]; omega)
    rw [hb]
    refine ⟨?_, ?_, ?_, ?_, ?_⟩
    · rw [fertTrace_succ, hs2, e1, List.replicate_succ]
    · rw [fertRun_succ, hs1, e1]
    · rw [fertRun_succ, hs1, e2]
    · rw [fertRun_succ, hs1, e3]
    · rw [fertRun_succ, hs1, hfin]; push_cast; omega
  · rw [if_neg hpos] at e4
    have ha : fertGap ft (c + 1) = 1 := by unfold fertGap; rw [if_neg hpos]
    rw [ha]
    refine ⟨?_, ?_, ?_, ?_, ?_⟩
    · rw [fertTrace_succ, e1]; rfl
    · rw [fertRun_succ]; exact e1
    · rw [fertRun_succ]; exact e2
    · rw [fertRun_succ]; exact e3
    · rw [fertRun_succ]
      show (fertTick ft T u).finishTime ≤ T + ((1 : ℕ) : ℤ)
      rw [e4]; push_cast; omega

/-- One full dispense sweep, outside the priming window: from cursor
Starting (−1), due at `T`, with `k` sweeps already completed, the cursor
trace runs through one block per line 0..5 (each of its `fertGap` length)
and ends with the completion tick — Idle (−2) when this was the third
sweep, Starting (−1) otherwise — with the repetition counter incremented
or reset accordingly and the due time cleared. -/
theorem fertSweep (ft : ℤ → ℤ) (u : FertState) (T : ℤ) (k : ℤ)
    (h0 : u.startTime = 0) (h72 : 72 < T) (hc : u.cursor = -1)
    (hd : u.dumpCount = k) (hf : u.finishTime ≤ T) :
    fertTrace ft T (fertGap ft 0 + (fertGap ft 1 + (fertGap ft 2 + (fertGap ft 3 +
        (fertGap ft 4 + (fertGap ft 5 + 1)))))) u =
      List.replicate (fertGap ft 0) 0 ++ (List.replicate (fertGap ft 1) 1 ++
        (List.replicate (fertGap ft 2) 2 ++ (List.replicate (fertGap ft 3) 3 ++
          (List.replicate (fertGap ft 4) 4 ++ (List.replicate (fertGap ft 5) 5 ++
            [if k + 1 = 3 then -2 else -1]))))) ∧
    (fertRun ft T (fertGap ft 0 + (fertGap ft 1 + (fertGap ft 2 + (fertGap ft 3 +
        (fertGap ft 4 + (fertGap ft 5 + 1)))))) u).cursor =
      (if k + 1 = 3 then -2 else -1) ∧
    (fertRun ft T (fertGap ft 0 + (fertGap ft 1 + (fertGap ft 2 + (fertGap ft 3 +
        (fertGap ft 4 + (fertGap ft 5 + 1)))))) u).dumpCount =
      (if k + 1 = 3 then 0 else k + 1) ∧
    (fertRun ft T (fertGap ft 0 + (fertGap ft 1 + (fertGap ft 2 + (fertGap ft 3 +
        (fertGap ft 4 + (fertGap ft 5 + 1)))))) u).finishTime = 0 ∧
    (fertRun ft T (fertGap ft 0 + (fertGap ft 1 + (fertGap ft 2 + (fertGap ft 3 +
        (fertGap ft 4 + (fertGap ft 5 + 1)))))) u).startTime = 0 := by
  obtain ⟨tr0, c0, st0, d0, f0⟩ := fertBlock ft u T (-1) h0 h72 hc (by omega) (by omega) hf
  norm_num at tr0 c0 st0 d0 f0
  obtain ⟨tr1, c1, st1, d1, f1⟩ := fertBlock ft (fertRun ft T (fertGap ft 0) u)
    (T + fertGap ft 0) 0 st0 (by omega) (by omega) (by omega) (by omega) f0
  norm_num at tr1 c1 st1 d1 f1
  obtain ⟨tr2, c2, st2, d2, f2⟩ := fertBlock ft
    (fertRun ft (T + fertGap ft 0) (fertGap ft 1) (fertRun ft T (fertGap ft 0) u))
    (T + fertGap ft 0 + fertGap ft 1) 1 st1 (by omega) (by omega) (by omega) (by omega) f1
  norm_num at tr2 c2 st2 d2 f2
  obtain ⟨tr3, c3, st3, d3, f3⟩ := fertBlock ft
    (fertRun ft (T + fertGap ft 0 + fertGap ft 1) (fertGap ft 2)
      (fertRun ft (T + fertGap ft 0) (fertGap ft 1) (fertRun ft T (fertGap ft 0) u)))
    (T + fertGap ft 0 + fertGap ft 1 + fertGap ft 2) 2
    st2 (by omega) (by omega) (by omega) (by omega) f2
  norm_num at tr3 c3 st3 d3 f3
  obtain ⟨tr4, c4, st4, d4, f4⟩ := fertBlock ft
    (fertRun ft (T + fertGap ft 0 + fertGap ft 1 + fertGap ft 2) (fertGap ft 3)
      (fertRun ft (T + fertGap ft 0 + fertGap ft 1) (fertGap ft 2)
        (fertRun ft (T + fertGap ft 0) (fertGap ft 1) (fertRun ft T (fertGap ft 0) u))))
    (T + fertGap ft 0 + fertGap ft 1 + fertGap ft 2 + fertGap ft 3) 3
    st3 (by omega) (by omega) (by omega) (by omega) f3
  norm_num at tr4 c4 st4 d4 f4
  obtain ⟨tr5, c5, st5, d5, f5⟩ := fertBlock ft
    (fertRun ft (T + fertGap ft 0 + fertGap ft 1 + fertGap ft 2 + fertGap ft 3) (fertGap ft 4)
      (fertRun ft (T + fertGap ft 0 + fertGap ft 1 + fertGap ft 2) (fertGap ft 3)
        (fertRun ft (T + fertGap ft 0 + fertGap ft 1) (fertGap ft 2)
          (fertRun ft (T + fertGap ft 0) (fertGap ft 1) (fertRun ft T (fertGap ft 0) u)))))
    (T + fertGap ft 0 + fertGap ft 1 + fertGap ft 2 + fertGap ft 3 + fertGap ft 4) 4
    st4 (by omega) (by omega) (by omega) (by omega) f4
  norm_num at tr5 c5 st5 d5 f5
  obtain ⟨e1, e2, e3, e4⟩ := fertTick_finish ft
    (T + fertGap ft 0 + fertGap ft 1 + fertGap ft 2 + fertGap ft 3 + fertGap ft 4 + fertGap ft 5)
    (fertRun ft (T + fertGap ft 0 + fertGap ft 1 + fertGap ft 2 + fertGap ft 3 + fertGap ft 4)
      (fertGap ft 5)
      (fertRun ft (T + fertGap ft 0 + fertGap ft 1 + fertGap ft 2 + fertGap ft 3) (fertGap ft 4)
        (fertRun ft (T + fertGap ft 0 + fertGap ft 1 + fertGap ft 2) (fertGap ft 3)
          (fertRun ft (T + fertGap ft 0 + fertGap ft 1) (fertGap ft 2)
            (fertRun ft (T + fertGap ft 0) (fertGap ft 1) (fertRun ft T (fertGap ft 0) u))))))
    st5 (by omega) (by omega) f5
  rw [d5, d4, d3, d2, d1, d0, hd] at e1 e2
  refine ⟨?_, ?_, ?_, ?_, ?_⟩
  · rw [fertTrace_add ft (fertGap ft 0) T _ u, tr0,
      fertTrace_add ft (fertGap ft 1) (T + fertGap ft 0) _ _, tr1,
      fertTrace_add ft (fertGap ft 2) (T + fertGap ft 0 + fertGap ft 1) _ _, tr2,
      fertTrace_add ft (fertGap ft 3) (T + fertGap ft 0 + fertGap ft 1 + fertGap ft 2) _ _, tr3,
      fertTrace_add ft (fertGap ft 4)
        (T + fertGap ft 0 + fertGap ft 1 + fertGap ft 2 + fertGap ft 3) _ _, tr4,
      fertTrace_add ft (fertGap ft 5)
        (T + fertGap ft 0 + fertGap ft 1 + fertGap ft 2 + fertGap ft 3 + fertGap ft 4) _ _, tr5,
      fertTrace_succ, e1]
    rfl
  · rw [fertRun_add ft (fertGap ft 0) T _ u,
      fertRun_add ft (fertGap ft 1) (T + fertGap ft 0) _ _,
      fertRun_add ft (fertGap ft 2) (T + fertGap ft 0 + fertGap ft 1) _ _,
      fertRun_add ft (fertGap ft 3) (T + fertGap ft 0 + fertGap ft 1 + fertGap ft 2) _ _,
      fertRun_add ft (fertGap ft 4)
        (T + fertGap ft 0 + fertGap ft 1 + fertGap ft 2 + fertGap ft 3) _ _,
      fertRun_add ft (fertGap ft 5)
        (T + fertGap ft 0 + fertGap ft 1 + fertGap ft 2 + fertGap ft 3 + fertGap ft 4) _ _,
      fertRun_succ]
    exact e1
  · rw [fertRun_add ft (fertGap ft 0) T _ u,
      fertRun_add ft (fertGap ft 1) (T + fertGap ft 0) _ _,
      fertRun_add ft (fertGap ft 2) (T + fertGap ft 0 + fertGap ft 1) _ _,
      fertRun_add ft (fertGap ft 3) (T + fertGap ft 0 + fertGap ft 1 + fertGap ft 2) _ _,
      fertRun_add ft (fertGap ft 4)
        (T + fertGap ft 0 + fertGap ft 1 + fertGap ft 2 + fertGap ft 3) _ _,
      fertRun_add ft (fertGap ft 5)
        (T + fertGap ft 0 + fertGap ft 1 + fertGap ft 2 + fertGap ft 3 + fertGap ft 4) _ _,
      fertRun_succ]
    exact e2
  · rw [fertRun_add ft (fertGap ft 0) T _ u,
      fertRun_add ft (fertGap ft 1) (T + fertGap ft 0) _ _,
      fertRun_add ft (fertGap ft 2) (T + fertGap ft 0 + fertGap ft 1) _ _,
      fertRun_add ft (fertGap ft 3) (T + fertGap ft 0 + fertGap ft 1 + fertGap ft 2) _ _,
      fertRun_add ft (fertGap ft 4)
        (T + fertGap ft 0 + fertGap ft 1 + fertGap ft 2 + fertGap ft 3) _ _,
      fertRun_add ft (fertGap ft 5)
        (T + fertGap ft 0 + fertGap ft 1 + fertGap ft 2 + fertGap ft 3 + fertGap ft 4) _ _,
      fertRun_succ]
    exact e3
  · rw [fertRun_add ft (fertGap ft 0) T _ u,
      fertRun_add ft (fertGap ft 1) (T + fertGap ft 0) _ _,
      fertRun_add ft (fertGap ft 2) (T + fertGap ft 0 + fertGap ft 1) _ _,
      fertRun_add ft (fertGap ft 3) (T + fertGap ft 0 + fertGap ft 1 + fertGap ft 2) _ _,
      fertRun_add ft (fertGap ft 4)
        (T + fertGap ft 0 + fertGap ft 1 + fertGap ft 2 + fertGap ft 3) _ _,
      fertRun_add ft (fertGap ft 5)
        (T + fertGap ft 0 + fertGap ft 1 + fertGap ft 2 + fertGap ft 3 + fertGap ft 4) _ _,
      fertRun_succ]
    exact e4

/-- During the priming window (any tick other than the 72-second mark,
with the cursor still idle) the dispense machinery does not move. -/
theorem fertPrime_step (ft : ℤ → ℤ) (now : ℤ) (s : FertState) (t0 : ℤ)
    (hst : s.startTime = t0) (hcur : s.cursor = -2) (hne : now ≠ t0 + 72) :
    (fertTick ft now s).cursor = -2 ∧ (fertTick ft now s).startTime = t0 ∧
    (fertTick ft now s).dumpCount = s.dumpCount ∧
    (fertTick ft now s).finishTime = s.finishTime ∧
    (fertTick ft now s).lineOn = s.lineOn := by
  obtain ⟨e1, e2, e3, e4, e5⟩ := fertEvents_no72 now s (by rw [hst]; exact hne)
  unfold fertTick
  rw [fertDispense_idle ft now (fertEvents now s) (by rw [e1, hcur])]
  exact ⟨e1.trans hcur, e2.trans hst, e3, e4, e5⟩

/-- The first 72 ticks of a fertilising invocation keep the dispense
machinery idle: the cursor trace is constant at Idle and only the priming
relays move. -/
theorem fertPrimeRun (ft : ℤ → ℤ) (k : ℕ) : ∀ (t t0 : ℤ) (s : FertState),
    s.startTime = t0 → s.cursor = -2 → t + k ≤ t0 + 72 →
    (fertRun ft t k s).cursor = -2 ∧ (fertRun ft t k s).startTime = t0 ∧
    (fertRun ft t k s).dumpCount = s.dumpCount ∧
    (fertRun ft t k s).finishTime = s.finishTime ∧
    (fertRun ft t k s).lineOn = s.lineOn ∧
    fertTrace ft t k s = List.replicate k (-2) := by
  induction k with
  | zero => intro t t0 s h1 h2 h3; exact ⟨h2, h1, rfl, rfl, rfl, rfl⟩
  | succ k ih =>
    intro t t0 s h1 h2 h3
    obtain ⟨p1, p2, p3, p4, p5⟩ := fertPrime_step ft t s t0 h1 h2 (by push_cast at h3; omega)
    obtain ⟨q1, q2, q3, q4, q5, q6⟩ := ih (t + 1) t0 (fertTick ft t s) p2 p1
      (by push_cast at h3 ⊢; omega)
    refine ⟨?_, ?_, ?_, ?_, ?_, ?_⟩
    · rw [fertRun_succ]; exact q1
    · rw [fertRun_succ]; exact q2
    · rw [fertRun_succ, q3, p3]
    · rw [fertRun_succ, q4, p4]
    · rw [fertRun_succ, q5, p5]
    · rw [fertTrace_succ, q6, p1, List.replicate_succ]

/-- At the 72-second mark the priming events hand the machine to the
dispense sweep: cursor Starting, `startTime` cleared, everything else of
the dispense machinery untouched. -/
theorem fertEvents_at72 (now : ℤ) (s : FertState) (h : now = s.startTime + 72) :
    (fertEvents now s).cursor = -1 ∧ (fertEvents now s).startTime = 0 ∧
    (fertEvents now s).dumpCount = s.dumpCount ∧
    (fertEvents now s).finishTime = s.finishTime ∧
    (fertEvents now s).lineOn = s.lineOn := by
  obtain ⟨a1, a2, a3, a4, a5, -, -⟩ := fertEvent0_fields now s
  obtain ⟨b1, b2, b3, b4, b5⟩ := fertEvent32_fields now (fertEvent0 now s)
  obtain ⟨c1, c2, c3, c4, c5⟩ := fertEvent40_fields now (fertEvent32 now (fertEvent0 now s))
  unfold fertEvents fertEvent72
  rw [if_pos (by rw [c1, b1, a1]; exact h)]
  exact ⟨rfl, rfl, by rw [c3, b3, a3], by rw [c4, b4, a4], by rw [c5, b5, a5]⟩

/-- The tick that crosses from priming into dispensing behaves exactly as
if it had started from the post-priming-event state. -/
theorem fertCross (ft : ℤ → ℤ) (T : ℤ) (s : FertState)
    (h0 : (fertEvents T s).startTime = 0) (h72 : 72 < T) :
    fertTick ft T s = fertTick ft T (fertEvents T s) := by
  show fertDispense ft T (fertEvents T s) = fertDispense ft T (fertEvents T (fertEvents T s))
  rw [fertEvents_noop T (fertEvents T s) h0 h72]

/-- Runs and traces across the priming/dispensing boundary agree with the
runs and traces from the post-priming-event state. -/
theorem fertRun_cross (ft : ℤ → ℤ) (T : ℤ) (n : ℕ) (s : FertState)
    (h0 : (fertEvents T s).startTime = 0) (h72 : 72 < T) :
    fertRun ft T (n + 1) s = fertRun ft T (n + 1) (fertEvents T s) ∧
    fertTrace ft T (n + 1) s = fertTrace ft T (n + 1) (fertEvents T s) := by
  have h := fertCross ft T s h0 h72
  constructor
  · rw [fertRun_succ, h, ← fertRun_succ]
  · rw [fertTrace_succ, h, ← fertTrace_succ]

/-- `fertEvent72` never touches the per-line solenoid commands. -/
theorem fertEvent72_lineOn (now : ℤ) (s : FertState) :
    (fertEvent72 now s).lineOn = s.lineOn := by
  unfold fertEvent72
  split <;> rfl

/-- The priming events never touch the per-line solenoid commands. -/
theorem fertEvents_lineOn (now : ℤ) (s : FertState) :
    (fertEvents now s).lineOn = s.lineOn := by
  obtain ⟨-, -, -, -, a5, -, -⟩ := fertEvent0_fields now s
  obtain ⟨-, -, -, -, b5⟩ := fertEvent32_fields now (fertEvent0 now s)
  obtain ⟨-, -, -, -, c5⟩ := fertEvent40_fields now (fertEvent32 now (fertEvent0 now s))
  unfold fertEvents
  rw [fertEvent72_lineOn, c5, b5, a5]

/-- Closing a line keeps an already-closed line closed. -/
theorem fertClose_lineOn_false (s : FertState) (i : ℤ) (h : s.lineOn i = false) :
    (fertClose s).lineOn i = false := by
  unfold fertClose
  split
  · by_cases hic : i = s.cursor <;> simp [hic, h]
  · exact h

/-- A line whose configured duration is not positive is never commanded
open by a fertilising tick. -/
theorem fertTick_lineOn_false (ft : ℤ → ℤ) (now : ℤ) (s : FertState) (i : ℤ)
    (hft : ft i ≤ 0) (h : s.lineOn i = false) :
    (fertTick ft now s).lineOn i = false := by
  have he : (fertEvents now s).lineOn = s.lineOn := fertEvents_lineOn now s
  unfold fertTick fertDispense
  split
  · have hcl : (fertClose (fertEvents now s)).lineOn i = false := by
      apply fertClose_lineOn_false
      rw [he]
      exact h
    unfold fertAdvance
    split_ifs with h6 h3 hpos
    · exact hcl
    · exact hcl
    · by_cases hic : i = (fertClose (fertEvents now s)).cursor + 1
      · exfalso
        rw [hic] at hft
        omega
      · simpa [hic] using hcl
    · exact hcl
  · rw [he]
    exact h

/-- A line with non-positive configured duration that starts closed stays
closed along every fertilising run: it is never opened. -/
theorem fertRun_lineOn_false (ft : ℤ → ℤ) (i : ℤ) (hft : ft i ≤ 0) (n : ℕ) :
    ∀ (t : ℤ) (s : FertState), s.lineOn i = false →
      (fertRun ft t n s).lineOn i = false := by
  induction n with
  | zero => intro t s h; exact h
  | succ n ih =>
    intro t s h
    rw [fertRun_succ]
    exact ih (t + 1) _ (fertTick_lineOn_false ft t s i hft h)

set_option maxRecDepth 1000000 in
/-- Counterexample to claim C6: a complete fertilising invocation at the
source configuration (every line 20 seconds), run tick by tick from the
trigger state: it contains exactly one priming sequence but three
dispensing sweeps — so each repetition is not preceded by its own priming
sequence. -/
theorem fert_cycle_priming_count_cex :
    countPairs primingDoneP
        (fertStart 1000 :: fertStates sourceFertTimes 1000 435 (fertStart 1000)) = 1 ∧
    countPairs sweepDoneP
        (fertStart 1000 :: fertStates sourceFertTimes 1000 435 (fertStart 1000)) = 3 ∧
    (fertRun sourceFertTimes 1000 435 (fertStart 1000)).cursor = -2 ∧
    (fertRun sourceFertTimes 1000 435 (fertStart 1000)).dumpCount = 0 ∧
    (1 : ℕ) ≠ 3 := by decide

/-- Claim C6 (amended): a full fertilising-cycle invocation performs
exactly one priming sequence (72 idle ticks of the dispense cursor)
followed by exactly 3 repetitions of the 6-line dispensing sweep; within
each sweep every line is visited in order, dwelling its configured
duration when positive and a single skip tick otherwise; a line whose
configured duration is zero or negative is never opened; a line with
positive duration is opened with its due time exactly `now + duration`;
and after the third repetition the cycle returns to Idle with the
repetition counter reset and the due time and `startTime` cleared. -/
theorem fert_cycle_one_priming_three_sweeps (ft : ℤ → ℤ) (t0 : ℤ) (s : FertState)
    (h72 : 72 < t0) (hst : s.startTime = t0) (hcur : s.cursor = -2)
    (hdump : s.dumpCount = 0) (hfin : s.finishTime ≤ t0 + 72) :
    fertTrace ft t0 (72 + ((fertGap ft 0 + (fertGap ft 1 + (fertGap ft 2 + (fertGap ft 3 +
          (fertGap ft 4 + (fertGap ft 5 + 1)))))) +
        ((fertGap ft 0 + (fertGap ft 1 + (fertGap ft 2 + (fertGap ft 3 +
          (fertGap ft 4 + (fertGap ft 5 + 1)))))) +
         (fertGap ft 0 + (fertGap ft 1 + (fertGap ft 2 + (fertGap ft 3 +
          (fertGap ft 4 + (fertGap ft 5 + 1))))))))) s =
      List.replicate 72 (-2) ++
        ((List.replicate (fertGap ft 0) 0 ++ (List.replicate (fertGap ft 1) 1 ++
          (List.replicate (fertGap ft 2) 2 ++ (List.replicate (fertGap ft 3) 3 ++
            (List.replicate (fertGap ft 4) 4 ++ (List.replicate (fertGap ft 5) 5 ++
              [-1])))))) ++
         ((List.replicate (fertGap ft 0) 0 ++ (List.replicate (fertGap ft 1) 1 ++
          (List.replicate (fertGap ft 2) 2 ++ (List.replicate (fertGap ft 3) 3 ++
            (List.replicate (fertGap ft 4) 4 ++ (List.replicate (fertGap ft 5) 5 ++
              [-1])))))) ++
          (List.replicate (fertGap ft 0) 0 ++ (List.replicate (fertGap ft 1) 1 ++
          (List.replicate (fertGap ft 2) 2 ++ (List.replicate (fertGap ft 3) 3 ++
            (List.replicate (fertGap ft 4) 4 ++ (List.replicate (fertGap ft 5) 5 ++
              [-2])))))))) ∧
    (fertRun ft t0 (72 + ((fertGap ft 0 + (fertGap ft 1 + (fertGap ft 2 + (fertGap ft 3 +
          (fertGap ft 4 + (fertGap ft 5 + 1)))))) +
        ((fertGap ft 0 + (fertGap ft 1 + (fertGap ft 2 + (fertGap ft 3 +
          (fertGap ft 4 + (fertGap ft 5 + 1)))))) +
         (fertGap ft 0 + (fertGap ft 1 + (fertGap ft 2 + (fertGap ft 3 +
          (fertGap ft 4 + (fertGap ft 5 + 1))))))))) s).cursor = -2 ∧
    (fertRun ft t0 (72 + ((fertGap ft 0 + (fertGap ft 1 + (fertGap ft 2 + (fertGap ft 3 +
          (fertGap ft 4 + (fertGap ft 5 + 1)))))) +
        ((fertGap ft 0 + (fertGap ft 1 + (fertGap ft 2 + (fertGap ft 3 +
          (fertGap ft 4 + (fertGap ft 5 + 1)))))) +
         (fertGap ft 0 + (fertGap ft 1 + (fertGap ft 2 + (fertGap ft 3 +
          (fertGap ft 4 + (fertGap ft 5 + 1))))))))) s).dumpCount = 0 ∧
    (fertRun ft t0 (72 + ((fertGap ft 0 + (fertGap ft 1 + (fertGap ft 2 + (fertGap ft 3 +
          (fertGap ft 4 + (fertGap ft 5 + 1)))))) +
        ((fertGap ft 0 + (fertGap ft 1 + (fertGap ft 2 + (fertGap ft 3 +
          (fertGap ft 4 + (fertGap ft 5 + 1)))))) +
         (fertGap ft 0 + (fertGap ft 1 + (fertGap ft 2 + (fertGap ft 3 +
          (fertGap ft 4 + (fertGap ft 5 + 1))))))))) s).finishTime = 0 ∧
    (fertRun ft t0 (72 + ((fertGap ft 0 + (fertGap ft 1 + (fertGap ft 2 + (fertGap ft 3 +
          (fertGap ft 4 + (fertGap ft 5 + 1)))))) +
        ((fertGap ft 0 + (fertGap ft 1 + (fertGap ft 2 + (fertGap ft 3 +
          (fertGap ft 4 + (fertGap ft 5 + 1)))))) +
         (fertGap ft 0 + (fertGap ft 1 + (fertGap ft 2 + (fertGap ft 3 +
          (fertGap ft 4 + (fertGap ft 5 + 1))))))))) s).startTime = 0 ∧
    (∀ i : ℤ, ft i ≤ 0 → s.lineOn i = false →
      ∀ n : ℕ, (fertRun ft t0 n s).lineOn i = false) ∧
    (∀ (now : ℤ) (u : FertState) (c : ℤ), u.startTime = 0 → 72 < now → u.cursor = c →
      -1 ≤ c → c ≤ 4 → u.finishTime ≤ now → 0 < ft (c + 1) →
      (fertTick ft now u).lineOn (c + 1) = true ∧
      (fertTick ft now u).finishTime = now + ft (c + 1)) := by
  obtain ⟨P1, P2, P3, P4, P5, P6⟩ := fertPrimeRun ft 72 t0 t0 s hst hcur (by push_cast; omega)
  have hT0 : t0 + ((72 : ℕ) : ℤ) = t0 + 72 := by push_cast; ring
  obtain ⟨E1, E2, E3, E4, E5⟩ :=
    fertEvents_at72 (t0 + 72) (fertRun ft t0 72 s) (by rw [P2])
  obtain ⟨m, hm⟩ : ∃ m : ℕ,
      (fertGap ft 0 + (fertGap ft 1 + (fertGap ft 2 + (fertGap ft 3 +
        (fertGap ft 4 + (fertGap ft 5 + 1)))))) +
      ((fertGap ft 0 + (fertGap ft 1 + (fertGap ft 2 + (fertGap ft 3 +
        (fertGap ft 4 + (fertGap ft 5 + 1)))))) +
       (fertGap ft 0 + (fertGap ft 1 + (fertGap ft 2 + (fertGap ft 3 +
        (fertGap ft 4 + (fertGap ft 5 + 1))))))) = m + 1 :=
    ⟨(fertGap ft 0 + (fertGap ft 1 + (fertGap ft 2 + (fertGap ft 3 +
        (fertGap ft 4 + (fertGap ft 5 + 1)))))) +
      ((fertGap ft 0 + (fertGap ft 1 + (fertGap ft 2 + (fertGap ft 3 +
        (fertGap ft 4 + (fertGap ft 5 + 1)))))) +
       (fertGap ft 0 + (fertGap ft 1 + (fertGap ft 2 + (fertGap ft 3 +
        (fertGap ft 4 + (fertGap ft 5 + 1))))))) - 1, by omega⟩
  obtain ⟨CR1, CR2⟩ := fertRun_cross ft (t0 + 72) m (fertRun ft t0 72 s) E2 (by omega)
  obtain ⟨S1tr, S1c, S1d, S1f, S1st⟩ :=
    fertSweep ft (fertEvents (t0 + 72) (fertRun ft t0 72 s)) (t0 + 72) 0 E2 (by omega) E1
      (by rw [E3, P3, hdump]) (by rw [E4, P4]; exact hfin)
  norm_num at S1c S1d
  obtain ⟨S2tr, S2c, S2d, S2f, S2st⟩ :=
    fertSweep ft
      (fertRun ft (t0 + 72)
        (fertGap ft 0 + (fertGap ft 1 + (fertGap ft 2 + (fertGap ft 3 +
          (fertGap ft 4 + (fertGap ft 5 + 1))))))
        (fertEvents (t0 + 72) (fertRun ft t0 72 s)))
      (t0 + 72 + ((fertGap ft 0 + (fertGap ft 1 + (fertGap ft 2 + (fertGap ft 3 +
          (fertGap ft 4 + (fertGap ft 5 + 1)))))) : ℕ))
      1 S1st (by omega) S1c S1d (by rw [S1f]; omega)
  norm_num at S2c S2d
  obtain ⟨S3tr, S3c, S3d, S3f, S3st⟩ :=
    fertSweep ft
      (fertRun ft
        (t0 + 72 + ((fertGap ft 0 + (fertGap ft 1 + (fertGap ft 2 + (fertGap ft 3 +
            (fertGap ft 4 + (fertGap ft 5 + 1)))))) : ℕ))
        (fertGap ft 0 + (fertGap ft 1 + (fertGap ft 2 + (fertGap ft 3 +
          (fertGap ft 4 + (fertGap ft 5 + 1))))))
        (fertRun ft (t0 + 72)
          (fertGap ft 0 + (fertGap ft 1 + (fertGap ft 2 + (fertGap ft 3 +
            (fertGap ft 4 + (fertGap ft 5 + 1))))))
          (fertEvents (t0 + 72) (fertRun ft t0 72 s))))
      (t0 + 72 + ((fertGap ft 0 + (fertGap ft 1 + (fertGap ft 2 + (fertGap ft 3 +
          (fertGap ft 4 + (fertGap ft 5 + 1)))))) : ℕ) +
        ((fertGap ft 0 + (fertGap ft 1 + (fertGap ft 2 + (fertGap ft 3 +
          (fertGap ft 4 + (fertGap ft 5 + 1)))))) : ℕ))
      2 S2st (by omega) S2c S2d (by rw [S2f]; omega)
  norm_num at S3c S3d
  refine ⟨?_, ?_, ?_, ?_, ?_,
    fun i hi h0 n => fertRun_lineOn_false ft i hi n t0 s h0,
    fun now u c hu0 hu72 huc hc1 hc2 huf hpos =>
      ⟨((fertTick_fire ft now u c hu0 hu72 huc hc1 hc2 huf).2.2.2.2) hpos,
       by rw [(fertTick_fire ft now u c hu0 hu72 huc hc1 hc2 huf).2.2.2.1, if_pos hpos]⟩⟩
  · rw [fertTrace_add ft 72 t0 _ s, P6, hT0, hm, CR2, ← hm,
      fertTrace_add ft _ (t0 + 72) _ _, S1tr,
      fertTrace_add ft _ _ _ _, S2tr, S3tr]
    norm_num
  · rw [fertRun_add ft 72 t0 _ s, hT0, hm, CR1, ← hm,
      fertRun_add ft _ (t0 + 72) _ _,
      fertRun_add ft _ _ _ _]
    exact S3c
  · rw [fertRun_add ft 72 t0 _ s, hT0, hm, CR1, ← hm,
      fertRun_add ft _ (t0 + 72) _ _,
      fertRun_add ft _ _ _ _]
    exact S3d
  · rw [fertRun_add ft 72 t0 _ s, hT0, hm, CR1, ← hm,
      fertRun_add ft _ (t0 + 72) _ _,
      fertRun_add ft _ _ _ _]
    exact S3f
  · rw [fertRun_add ft 72 t0 _ s, hT0, hm, CR1, ← hm,
      fertRun_add ft _ (t0 + 72) _ _,
      fertRun_add ft _ _ _ _]
    exact S3st

/-- Witness for the amended claim C6 at the mixed configuration (lines 1
and 3 skipped, the others 2 seconds): the 105-tick invocation from the
trigger state ends idle with the repetition counter and timers cleared,
and the skipped lines are never opened. -/
theorem fert_cycle_one_priming_three_sweeps_witness :
    (fertRun mixedFertTimes 1000 105 (fertStart 1000)).cursor = -2 ∧
    (fertRun mixedFertTimes 1000 105 (fertStart 1000)).dumpCount = 0 ∧
    (fertRun mixedFertTimes 1000 105 (fertStart 1000)).finishTime = 0 ∧
    (fertRun mixedFertTimes 1000 105 (fertStart 1000)).startTime = 0 ∧
    (∀ n : ℕ, (fertRun mixedFertTimes 1000 n (fertStart 1000)).lineOn 1 = false) := by
  obtain ⟨-, h1, h2, h3, h4, h5, -⟩ := fert_cycle_one_priming_three_sweeps mixedFertTimes 1000
    (fertStart 1000) (by decide) rfl rfl rfl (by decide)
  exact ⟨h1, h2, h3, h4, fun n => h5 1 (by decide) rfl n⟩

/-- Witness for the amended claim C1 at the post-`setup()` state with all
feedback reads LOW. -/
theorem spin_guarded_conditional_mutex_witness :
    SpinInv (spinStep (readsOf []) true spinInit) ∧
    SpinWF (spinStep (readsOf []) true spinInit) ∧
    (∀ j k : ℤ, (spinStep (readsOf []) true spinInit).spin j = true →
      (spinStep (readsOf []) true spinInit).spin k = true → j = k) ∧
    (∀ (i : ℤ) (u : SpinState), (lineStep (readsOf []) true i u).spin i = true →
      u.spin i = true ∨ u.lock = i ∨ u.lock < 0) :=
  spin_guarded_conditional_mutex (readsOf []) true spinInit
    (fun _ _ => rfl)
    (fun j hj => absurd hj (by simp [spinInit]))
    (fun i h => absurd h (by simp [spinInit]))

end Cucumber
